import Mathlib

/-!
Verification development for the SWAPI demo client (src/swapi.js).

The repository file contains two near-identical copies of the same program
(an original and a duplicate separated by a document marker).  Definitions
suffixed `A` embed the first copy (lines 1-304), definitions suffixed `B`
embed the second copy (lines 305-575).  Unsuffixed definitions are shared
helpers whose two copies are literally identical.

Modelling conventions:
  * JSON values are the inductive `Json`; `JSON.parse` of a raw response
    body is modelled by letting the network oracle deliver the parse
    outcome (`Option Json`) directly, since `JSON.parse` is a platform
    primitive, not repository code.
  * `JSON.stringify(x).length` is modelled by `dataSize`, which computes
    the exact serialized length for the unescaped fragment of JSON.
  * The in-memory cache object is an association list in insertion order;
    `Object.keys(cache).length` is its length.
  * Machine numbers are `Nat`/`Int`; the counters only ever grow by small
    increments so JS float behaviour is immaterial to the claims.
-/

/-- JSON values as produced by JSON.parse. -/
inductive Json where
  | null
  | bool (b : Bool)
  | num (n : Int)
  | str (s : String)
  | arr (xs : List Json)
  | obj (fields : List (String × Json))

-- Model of the serialized length of a JSON value:
-- `dataSize v` is the length of `JSON.stringify(v)` for strings that need no
-- escaping (the only use in the source is `JSON.stringify(data).length`,
-- accumulated into `totalDataSize`; no claim depends on the exact value).
mutual
def dataSize : Json → Nat
  | .null => 4
  | .bool true => 4
  | .bool false => 5
  | .num n => (toString n).length
  | .str s => s.length + 2
  | .arr xs => dataSizeList xs + 2
  | .obj fs => dataSizeFields fs + 2

def dataSizeList : List Json → Nat
  | [] => 0
  | [x] => dataSize x
  | x :: y :: xs => dataSize x + 1 + dataSizeList (y :: xs)

def dataSizeFields : List (String × Json) → Nat
  | [] => 0
  | [(k, v)] => k.length + 3 + dataSize v
  | (k, v) :: f :: fs => k.length + 3 + dataSize v + 1 + dataSizeFields (f :: fs)
end

/-- JavaScript truthiness of a JSON value, as used by `if (cache[endpoint])`:
null, false, 0 and the empty string are falsy; every array and object
(including empty ones) is truthy. -/
def jsTruthy : Json → Bool
  | .null => false
  | .bool b => b
  | .num n => n != 0
  | .str s => s != ""
  | .arr _ => true
  | .obj _ => true

/-- The process-wide cache `const cache = {}`: an association list from
endpoint string to parsed JSON value, in insertion order. -/
abbrev Cache := List (String × Json)

/-- `cache[endpoint]` read: first binding of the key, `none` = undefined. -/
def cacheLookup : Cache → String → Option Json
  | [], _ => none
  | (k0, v0) :: rest, k => if k0 = k then some v0 else cacheLookup rest k

/-- `cache[endpoint] = v` write: overwrite in place or append a new key,
as JS property assignment does. -/
def cacheInsert : Cache → String → Json → Cache
  | [], k, v => [(k, v)]
  | (k0, v0) :: rest, k, v =>
      if k0 = k then (k0, v) :: rest else (k0, v0) :: cacheInsert rest k v

/-- Truthiness of `cache[endpoint]` (undefined is falsy). -/
def jsTruthyOpt : Option Json → Bool
  | none => false
  | some v => jsTruthy v

/-- The condition under which `fetchFromApi` takes the cache-hit branch. -/
def cacheHit (c : Cache) (e : String) : Bool :=
  jsTruthyOpt (cacheLookup c e)

theorem cacheLookup_insert_self (c : Cache) (e : String) (v : Json) :
    cacheLookup (cacheInsert c e v) e = some v := by
  induction c with
  | nil => simp [cacheInsert, cacheLookup]
  | cons hd tl ih =>
      obtain ⟨k0, v0⟩ := hd
      by_cases h : k0 = e
      · simp [cacheInsert, cacheLookup, h]
      · simp [cacheInsert, cacheLookup, h, ih]

theorem cacheInsert_length_ge (c : Cache) (e : String) (v : Json) :
    c.length ≤ (cacheInsert c e v).length := by
  induction c with
  | nil => simp [cacheInsert]
  | cons hd tl ih =>
      obtain ⟨k0, v0⟩ := hd
      by_cases h : k0 = e
      · simp [cacheInsert, h]
      · simp only [cacheInsert, if_neg h, List.length_cons]
        omega

/-! ## JavaScript numeric string coercion

The planet filter of the first copy uses `Number` (via `knownNumber`,
line 108); the second copy uses `parseInt` (lines 404-405).  Both are
platform primitives; they are modelled here on the fragment the data
inhabits: optionally sign-prefixed decimal integer strings surrounded by
whitespace.  `none` models NaN.  Fractional, exponent and hexadecimal
forms are outside the modelled fragment. -/

/-- Whitespace as trimmed or skipped by Number / parseInt. -/
def isWS (c : Char) : Bool :=
  c == ' ' || c == '\t' || c == '\n' || c == '\r'

/-- Decimal value of a digit list (most significant first). -/
def digitsVal : List Char → Nat → Nat
  | [], acc => acc
  | c :: cs, acc => digitsVal cs (acc * 10 + (c.toNat - 48))

/-- Whitespace trimming on both ends, as `Number` performs. -/
def trimChars (cs : List Char) : List Char :=
  ((cs.dropWhile isWS).reverse.dropWhile isWS).reverse

/-- Split an optional leading sign; returns (negative?, remaining chars). -/
def signSplit : List Char → Bool × List Char
  | '-' :: rest => (true, rest)
  | '+' :: rest => (false, rest)
  | cs => (false, cs)

/-- All characters are decimal digits. -/
def allDigits (cs : List Char) : Bool := cs.all Char.isDigit

/-- Model of `Number(s)` on integer strings: trim whitespace; empty is 0;
then an optional sign followed by digits only; anything else is NaN. -/
def jsToNumber (s : String) : Option Int :=
  let t := trimChars s.data
  if t.isEmpty then some 0
  else
    let (neg, ds) := signSplit t
    if !ds.isEmpty && allDigits ds then
      some ((if neg then -1 else 1) * (digitsVal ds 0 : Int))
    else none

/-- Model of `parseInt(s)` (radix 10): skip leading whitespace, optional
sign, then the longest digit prefix; NaN when no digit is found. -/
def jsParseInt (s : String) : Option Int :=
  let t := s.data.dropWhile isWS
  let (neg, ds0) := signSplit t
  let ds := ds0.takeWhile Char.isDigit
  if ds.isEmpty then none
  else some ((if neg then -1 else 1) * (digitsVal ds 0 : Int))

/-- A plain decimal digit string (nonempty, digits only); the fragment on
which `Number` and `parseInt` provably agree. -/
def isDigitString (s : String) : Bool :=
  !s.data.isEmpty && allDigits s.data

theorem isDigit_not_ws (c : Char) (h : c.isDigit = true) : isWS c = false := by
  unfold isWS
  rcases eq_or_ne c ' ' with rfl | h1
  · exact absurd h (by decide)
  rcases eq_or_ne c '\t' with rfl | h2
  · exact absurd h (by decide)
  rcases eq_or_ne c '\n' with rfl | h3
  · exact absurd h (by decide)
  rcases eq_or_ne c '\r' with rfl | h4
  · exact absurd h (by decide)
  simp [h1, h2, h3, h4]

theorem dropWhile_isWS_of_digits (cs : List Char)
    (h : allDigits cs = true) : cs.dropWhile isWS = cs := by
  cases cs with
  | nil => rfl
  | cons c t =>
      have hc : c.isDigit = true := by
        have := List.all_eq_true.mp h c (by simp)
        exact this
      simp [List.dropWhile_cons, isDigit_not_ws c hc]

theorem trimChars_of_digits (cs : List Char)
    (h : allDigits cs = true) : trimChars cs = cs := by
  have hrev : allDigits cs.reverse = true := by
    unfold allDigits at h ⊢
    simp only [List.all_eq_true] at h ⊢
    intro c hc
    exact h c (List.mem_reverse.mp hc)
  unfold trimChars
  rw [dropWhile_isWS_of_digits cs h, dropWhile_isWS_of_digits cs.reverse hrev,
    List.reverse_reverse]

theorem signSplit_of_digits (cs : List Char)
    (h : allDigits cs = true) : signSplit cs = (false, cs) := by
  cases cs with
  | nil => rfl
  | cons c t =>
      have hc : c.isDigit = true := List.all_eq_true.mp h c (by simp)
      unfold signSplit
      split
      · rename_i heq
        rw [List.cons.injEq] at heq
        rw [heq.1] at hc
        exact absurd hc (by decide)
      · rename_i heq
        rw [List.cons.injEq] at heq
        rw [heq.1] at hc
        exact absurd hc (by decide)
      · rfl

theorem takeWhile_digits_of_digits (cs : List Char)
    (h : allDigits cs = true) : cs.takeWhile Char.isDigit = cs := by
  induction cs with
  | nil => rfl
  | cons c t ih =>
      have hc : c.isDigit = true := List.all_eq_true.mp h c (by simp)
      have ht : allDigits t = true := by
        unfold allDigits at h ⊢
        simp only [List.all_eq_true] at h ⊢
        intro x hx
        exact h x (by simp [hx])
      simp [List.takeWhile_cons, hc, ih ht]

/-- On plain digit strings, the two coercions agree and return the value. -/
theorem coercions_agree_on_digits (s : String) (h : isDigitString s = true) :
    jsToNumber s = some (digitsVal s.data 0 : Int) ∧
    jsParseInt s = some (digitsVal s.data 0 : Int) := by
  unfold isDigitString at h
  rw [Bool.and_eq_true] at h
  obtain ⟨hne, hd⟩ := h
  have hne' : s.data.isEmpty = false := by
    cases hy : s.data.isEmpty
    · rfl
    · rw [hy] at hne; exact absurd hne (by decide)
  constructor
  · unfold jsToNumber
    simp only [trimChars_of_digits s.data hd, signSplit_of_digits s.data hd]
    simp [hne', hd]
  · unfold jsParseInt
    simp only [dropWhile_isWS_of_digits s.data hd, signSplit_of_digits s.data hd,
      takeWhile_digits_of_digits s.data hd]
    simp [hne']

/-! ## Planets and the large-populated-planet filters -/

def PLANET_POPULATION_THRESHOLD : Int := 1000000000
def PLANET_DIAMETER_THRESHOLD : Int := 10000

/-- A planet record as consumed by the display functions (SWAPI delivers
population and diameter as strings). -/
structure Planet where
  name : String
  population : String
  diameter : String
  climate : String
  films : List String
deriving DecidableEq

/-- `knownNumber` (first copy, line 108):
`numberOrString !== "unknown" && !Number.isNaN(Number(numberOrString))`. -/
def knownNumber (x : String) : Bool :=
  x != "unknown" && (jsToNumber x).isSome

/-- `hasLargePopulation` (first copy, lines 111-113). -/
def hasLargePopulation (p : Planet) : Bool :=
  knownNumber p.population &&
    decide ((jsToNumber p.population).getD 0 > PLANET_POPULATION_THRESHOLD)

/-- `hasLargeDiameter` (first copy, lines 115-117). -/
def hasLargeDiameter (p : Planet) : Bool :=
  knownNumber p.diameter &&
    decide ((jsToNumber p.diameter).getD 0 > PLANET_DIAMETER_THRESHOLD)

/-- `isBigPopulatedPlanet` (first copy, lines 120-122). -/
def isBigPopulatedPlanet (p : Planet) : Bool :=
  hasLargePopulation p && hasLargeDiameter p

/-- The per-planet condition of the second copy's `displayLargePlanets`
(lines 403-406): `parseInt` comparisons guarded only against "unknown";
NaN comparisons are false. -/
def bigPlanetCheckB (p : Planet) : Bool :=
  p.population != "unknown" &&
    decide ((jsParseInt p.population).getD 0 > PLANET_POPULATION_THRESHOLD) &&
    (p.diameter != "unknown" &&
      decide ((jsParseInt p.diameter).getD 0 > PLANET_DIAMETER_THRESHOLD))

/-- Planets printed by the first copy's `displayLargePlanets` (lines 124-137). -/
def displayLargePlanetsA (ps : List Planet) : List Planet :=
  ps.filter isBigPopulatedPlanet

/-- Planets printed by the second copy's `displayLargePlanets` (lines 400-413). -/
def displayLargePlanetsB (ps : List Planet) : List Planet :=
  ps.filter bigPlanetCheckB

/-! ## Display handlers as throw predicates

The display functions are repository code that runs inside the
orchestrator's `try` (`handler(data)` in the first copy's task loop, the
explicit calls of the second copy, and `displayVehicle(vehicle)` in both).
Their console output never touches the state, but they throw TypeErrors on
unexpected payload shapes, and such a throw aborts the remaining steps of
the invocation exactly like a fetch rejection.  Each handler is therefore
embedded by its throw behaviour on the parsed JSON payload.  The JS facts
used: property access `x.f` throws iff `x` is null (undefined cannot come
out of JSON.parse) and yields undefined on any other non-object;
`undefined.slice`, `undefined.length`, `null.length` and calling a
non-function throw; optional chaining `x?.f` never throws.  Objects are
JSON.parse outputs, so their keys are unique and first-match lookup agrees
with JS. -/

/-- `MAX_STARSHIPS_DISPLAY` (line 7). -/
def MAX_STARSHIPS_DISPLAY : Nat := 3

/-- The JSON value null. -/
def Json.isNull : Json → Bool
  | .null => true
  | _ => false

/-- A field that is absent or bound to null — `.length` on it throws. -/
def fieldIsMissingOrNull (fs : List (String × Json)) (k : String) : Bool :=
  match cacheLookup fs k with
  | none => true
  | some v => v.isNull

/-- `displayCharacterDetails` (lines 81-89 and 372-380, identical): it
only reads properties of its argument, with `films` behind optional
chaining, so it throws iff the payload is null. -/
def displayCharacterDetails_throws (c : Json) : Bool := c.isNull

/-- `displayStarships` (lines 92-106 and 383-397, identical): evaluates
`starships.results.slice(0, 3).forEach(...)`, which throws unless the
payload is an object whose `results` field is an array (otherwise `.slice`
is applied to undefined, or `.forEach` to a non-function); each of the
first three ships only has properties read (pilots behind optional
chaining), so a ship throws iff it is null. -/
def displayStarships_throws (s : Json) : Bool :=
  match s with
  | .obj fs =>
      match cacheLookup fs "results" with
      | some (.arr xs) => (xs.take MAX_STARSHIPS_DISPLAY).any Json.isNull
      | _ => true
  | _ => true

/-- The first copy's `displayLargePlanets` (lines 124-137): throws unless
the payload is an object whose `results` field is an array; `filter`
throws on a null element (`planet.population` on null); displaying a
selected planet evaluates `films.length`, where the destructuring default
`films = []` only covers a missing field, so a selected planet whose
`films` field is the JSON value null throws.  Deciding selection on
arbitrary JSON field values would need the full JS `Number` coercion, so
an element with a null `films` field is conservatively flagged as throwing
whether or not it is selected; every theorem below uses only the no-throw
direction of this predicate, which is exact. -/
def displayLargePlanetsA_throws (p : Json) : Bool :=
  match p with
  | .obj fs =>
      match cacheLookup fs "results" with
      | some (.arr xs) =>
          xs.any (fun pl =>
            pl.isNull ||
            (match pl with
             | .obj pfs =>
                 (match cacheLookup pfs "films" with
                  | some .null => true
                  | _ => false)
             | _ => false))
      | _ => true
  | _ => true

/-- The second copy's `displayLargePlanets` (lines 400-413): iterates
`planets.results.forEach(planet => ...)`; `planet.population` throws iff
the element is null, and `planet.films?.length` is behind optional
chaining, so — unlike the first copy — a null `films` field never
throws. -/
def displayLargePlanetsB_throws (p : Json) : Bool :=
  match p with
  | .obj fs =>
      match cacheLookup fs "results" with
      | some (.arr xs) => xs.any Json.isNull
      | _ => true
  | _ => true

/-- Per-film throw behaviour inside `displayFilmsChronologically`: the
forEach reads `film.characters.length` and `film.planets.length`, which
throw when the film is not an object (the field access yields undefined)
or the field is absent or null; `.length` of a number, boolean or object
is undefined, which prints harmlessly. -/
def filmElem_throws (x : Json) : Bool :=
  match x with
  | .obj fs =>
      fieldIsMissingOrNull fs "characters" || fieldIsMissingOrNull fs "planets"
  | _ => true

/-- `displayFilmsChronologically` (lines 140-150 and 416-426, identical):
`results.sort` requires an array; the sort comparator reads
`release_date`, which throws only on null elements — elements the forEach
would throw on as well (`new Date(undefined)` is merely an invalid date);
then the forEach throws per `filmElem_throws` (a null element is not an
object, so it is covered). -/
def displayFilmsChronologically_throws (f : Json) : Bool :=
  match f with
  | .obj fs =>
      match cacheLookup fs "results" with
      | some (.arr xs) => xs.any filmElem_throws
      | _ => true
  | _ => true

/-- `displayVehicle` (lines 153-162 and 429-438, identical): it only reads
properties of its argument, so it throws iff the payload is null. -/
def displayVehicle_throws (v : Json) : Bool := v.isNull

/-- A payload on which no display handler of either copy throws. -/
def handlerSafe (v : Json) : Bool :=
  !displayCharacterDetails_throws v && !displayStarships_throws v &&
  !displayLargePlanetsA_throws v && !displayLargePlanetsB_throws v &&
  !displayFilmsChronologically_throws v && !displayVehicle_throws v

theorem handlerSafe_spec (v : Json) (h : handlerSafe v = true) :
    displayCharacterDetails_throws v = false ∧
    displayStarships_throws v = false ∧
    displayLargePlanetsA_throws v = false ∧
    displayLargePlanetsB_throws v = false ∧
    displayFilmsChronologically_throws v = false ∧
    displayVehicle_throws v = false := by
  unfold handlerSafe at h
  simp only [Bool.and_eq_true, Bool.not_eq_true'] at h
  obtain ⟨⟨⟨⟨⟨h1, h2⟩, h3⟩, h4⟩, h5⟩, h6⟩ := h
  exact ⟨h1, h2, h3, h4, h5, h6⟩

/-! ## The network and `fetchFromApi`

A network oracle (`World`) maps an endpoint to what the remote interaction
yields: a timeout, a socket error, or a response carrying a status code and
the `JSON.parse` outcome of its raw body (`none` = malformed).  The two
copies of `fetchFromApi` differ materially: in the first copy the
`try/catch` wraps only the synchronous registration of the `end` listener,
so a `JSON.parse` throw inside the listener is not caught — the promise
never settles and the exception escapes to the event loop uncaught
(`FetchResult.crash`).  The second copy parses inside a `try` within the
listener and rejects properly.  Aborting the in-flight socket on timeout is
a side effect outside the model. -/

/-- Outcome of one remote interaction for an endpoint. -/
inductive NetResult where
  | timeout
  | netError
  | response (status : Nat) (body : Option Json)

/-- The remote server, as seen through one endpoint fetch. -/
abbrev World := String → NetResult

/-- The error taxonomy of the spec; the source encodes these as `Error`
messages ("Request timeout for ...", "Request failed with status code ...",
the JSON.parse SyntaxError, and the socket error), plus the TypeError a
display handler throws on an unexpected payload shape — that exception is
not produced by `fetchFromApi` but is caught by the same orchestrator
`catch`. -/
inductive FetchError where
  | timeoutError (endpoint : String)
  | httpStatusError (status : Nat)
  | parseError
  | networkError
  | typeError
deriving DecidableEq

/-- How one `fetchFromApi` call ends: a resolved value, a rejection, or an
uncaught exception that escapes the promise and kills the process. -/
inductive FetchResult where
  | ok (v : Json)
  | fail (e : FetchError)
  | crash

/-- Result of one `fetchFromApi` call: the settled outcome, the cache
afterwards, and whether an outbound HTTP request was issued. -/
structure FetchOut where
  result : FetchResult
  cache : Cache
  didRequest : Bool

/-- Network part of the first copy's `fetchFromApi` (the Promise body,
lines 55-77): status >= 400 rejects (thrown inside the try); a parsed body
is written to the cache and resolved; a malformed body throws inside the
`end` listener, outside the try/catch: uncaught crash, no cache write. -/
def netFetchA (w : World) (c : Cache) (e : String) : FetchOut :=
  match w e with
  | .timeout => ⟨.fail (.timeoutError e), c, true⟩
  | .netError => ⟨.fail .networkError, c, true⟩
  | .response status body =>
      if 400 ≤ status then ⟨.fail (.httpStatusError status), c, true⟩
      else
        match body with
        | some v => ⟨.ok v, cacheInsert c e v, true⟩
        | none => ⟨.crash, c, true⟩

/-- Network part of the second copy's `fetchFromApi` (lines 342-368):
identical except that a malformed body rejects with the parse error. -/
def netFetchB (w : World) (c : Cache) (e : String) : FetchOut :=
  match w e with
  | .timeout => ⟨.fail (.timeoutError e), c, true⟩
  | .netError => ⟨.fail .networkError, c, true⟩
  | .response status body =>
      if 400 ≤ status then ⟨.fail (.httpStatusError status), c, true⟩
      else
        match body with
        | some v => ⟨.ok v, cacheInsert c e v, true⟩
        | none => ⟨.fail .parseError, c, true⟩

/-- `fetchFromApi` of the first copy (lines 49-78): a truthy cache entry is
returned without a request (`if (cache[endpoint])`); otherwise the network
is consulted.  The copy parses the raw body twice (once for the cache, once
for the resolution); `JSON.parse` is deterministic so both yield `v`. -/
def fetchFromApiA (w : World) (c : Cache) (e : String) : FetchOut :=
  match cacheLookup c e with
  | some v => if jsTruthy v then ⟨.ok v, c, false⟩ else netFetchA w c e
  | none => netFetchA w c e

/-- `fetchFromApi` of the second copy (lines 336-369). -/
def fetchFromApiB (w : World) (c : Cache) (e : String) : FetchOut :=
  match cacheLookup c e with
  | some v => if jsTruthy v then ⟨.ok v, c, false⟩ else netFetchB w c e
  | none => netFetchB w c e

/-! ## Application state and the orchestrator `fetchStarWarsData` -/

/-- The process-wide mutable state (lines 21-28): the cache and the four
counters of the stats route (`api_calls` = fetchCount, `data_size` =
totalDataSize, `errors` = errorCount, plus the rotating vehicle ID). -/
structure AppState where
  cache : Cache
  errorCount : Nat
  fetchCount : Nat
  totalDataSize : Nat
  lastCharacterId : Nat

/-- State at process start. -/
def initialState : AppState :=
  { cache := [], errorCount := 0, fetchCount := 0, totalDataSize := 0,
    lastCharacterId := 1 }

/-- `Object.keys(cache).length` as reported by the stats route. -/
def cacheSize (st : AppState) : Nat := st.cache.length

/-- `handleError` (lines 43-46): increments the error counter. -/
def handleError (st : AppState) : AppState :=
  { st with errorCount := st.errorCount + 1 }

/-- Ceiling of the rotating vehicle ID (`maxlastCharacterId`, line 14; the
second copy uses the literal 4 at line 462). -/
def maxlastCharacterId : Nat := 4

/-- A task pairs an endpoint with its display handler, the handler being
embedded by its throw behaviour. -/
abbrev SwTask := String × (Json → Bool)

/-- The `tasks` array of the first copy (lines 30-35): a module-level
constant, so `people/${lastCharacterId}` was interpolated once at load
time with lastCharacterId = 1 — the character endpoint is frozen. -/
def tasksA : List SwTask :=
  [("people/1", displayCharacterDetails_throws),
   ("starships/?page=1", displayStarships_throws),
   ("planets/?page=1", displayLargePlanetsA_throws),
   ("films/", displayFilmsChronologically_throws)]

/-- The task sequence of the second copy (lines 446-460), which
interpolates `people/${lastCharacterId}` at every invocation and uses its
own copy of `displayLargePlanets`. -/
def tasksB (id : Nat) : List SwTask :=
  [("people/" ++ toString id, displayCharacterDetails_throws),
   ("starships/?page=1", displayStarships_throws),
   ("planets/?page=1", displayLargePlanetsB_throws),
   ("films/", displayFilmsChronologically_throws)]

/-- SwTask endpoints of the first copy. -/
def tasksAEndpoints : List String :=
  ["people/1", "starships/?page=1", "planets/?page=1", "films/"]

/-- SwTask endpoints of the second copy. -/
def tasksBEndpoints (id : Nat) : List String :=
  ["people/" ++ toString id, "starships/?page=1", "planets/?page=1", "films/"]

theorem tasksA_map_fst : tasksA.map Prod.fst = tasksAEndpoints := rfl

theorem tasksB_map_fst (id : Nat) :
    (tasksB id).map Prod.fst = tasksBEndpoints id := rfl

/-- How one orchestrator invocation ends: normal completion, a rejection
caught by its try/catch, or an uncaught crash (first copy's parse path). -/
inductive RunOutcome where
  | completed
  | caught (e : FetchError)
  | crashed
deriving DecidableEq

/-- True on the `catch` branch outcomes. -/
def RunOutcome.isCaught : RunOutcome → Bool
  | .caught _ => true
  | _ => false

/-- Observable record of one orchestrator invocation: final state, the
endpoints passed to fetchFromApi in order, the outbound HTTP requests
actually issued, and how the invocation ended. -/
structure RunResult where
  state : AppState
  calls : List String
  outbound : List String
  outcome : RunOutcome

/-- The outbound-request contribution of one fetch call. -/
def outboundOf (f : FetchOut) (e : String) : List String :=
  if f.didRequest then [e] else []

/-- The sequential `for`/await chain over the tasks (first copy lines
170-174; second copy lines 446-460): each successful fetch first adds the
serialized size to totalDataSize (`totalDataSize += ...` precedes
`handler(data)` in the source) and then invokes the display handler; a
handler throw aborts the remaining steps with a TypeError that the
orchestrator's catch will receive; a fetch rejection aborts likewise; a
fetch crash (first copy's parse path) kills the invocation. -/
def runTasks (F : World → Cache → String → FetchOut) (w : World) :
    AppState → List SwTask → RunResult
  | st, [] => ⟨st, [], [], .completed⟩
  | st, (e, handler) :: rest =>
      let f := F w st.cache e
      match f.result with
      | .fail err => ⟨{ st with cache := f.cache }, [e], outboundOf f e, .caught err⟩
      | .crash => ⟨{ st with cache := f.cache }, [e], outboundOf f e, .crashed⟩
      | .ok v =>
          let st1 := { st with cache := f.cache,
                               totalDataSize := st.totalDataSize + dataSize v }
          if handler v then
            ⟨st1, [e], outboundOf f e, .caught .typeError⟩
          else
            let r := runTasks F w st1 rest
            ⟨r.state, e :: r.calls, outboundOf f e ++ r.outbound, r.outcome⟩

/-- The vehicle endpoints the orchestrator may append after the tasks. -/
def vehicleSuffix (id : Nat) : List String :=
  if id ≤ maxlastCharacterId then ["vehicles/" ++ toString id] else []

/-- `fetchStarWarsData` generically over the fetch function and the task
list (first copy lines 165-192, second copy lines 441-478): increment
fetchCount, await each task, then — while the rotating ID is at most 4 —
fetch `vehicles/<id>`, add its size, run `displayVehicle`, and only then
advance the ID (`lastCharacterId++` follows the handler call, so a
`displayVehicle` throw leaves the ID unchanged).  A thrown or rejected
error anywhere is caught once by `handleError`; a crash bypasses the
catch. -/
def runOrch (F : World → Cache → String → FetchOut) (w : World)
    (st : AppState) (ts : List SwTask) : RunResult :=
  let st0 := { st with fetchCount := st.fetchCount + 1 }
  let r := runTasks F w st0 ts
  match r.outcome with
  | .caught _ => ⟨handleError r.state, r.calls, r.outbound, r.outcome⟩
  | .crashed => r
  | .completed =>
      if r.state.lastCharacterId ≤ maxlastCharacterId then
        let e := "vehicles/" ++ toString r.state.lastCharacterId
        let f := F w r.state.cache e
        match f.result with
        | .fail err =>
            ⟨handleError { r.state with cache := f.cache },
              r.calls ++ [e], r.outbound ++ outboundOf f e, .caught err⟩
        | .crash =>
            ⟨{ r.state with cache := f.cache },
              r.calls ++ [e], r.outbound ++ outboundOf f e, .crashed⟩
        | .ok v =>
            let st2 := { r.state with
                         cache := f.cache,
                         totalDataSize := r.state.totalDataSize + dataSize v }
            if displayVehicle_throws v then
              ⟨handleError st2, r.calls ++ [e],
                r.outbound ++ outboundOf f e, .caught .typeError⟩
            else
              ⟨{ st2 with lastCharacterId := st2.lastCharacterId + 1 },
                r.calls ++ [e], r.outbound ++ outboundOf f e, .completed⟩
      else ⟨r.state, r.calls, r.outbound, .completed⟩

/-- One invocation of the first copy's `fetchStarWarsData`. -/
def fetchStarWarsDataA (w : World) (st : AppState) : RunResult :=
  runOrch fetchFromApiA w st tasksA

/-- One invocation of the second copy's `fetchStarWarsData`. -/
def fetchStarWarsDataB (w : World) (st : AppState) : RunResult :=
  runOrch fetchFromApiB w st (tasksB st.lastCharacterId)

/-- States along repeated invocations of the first copy from process start
(one fixed remote). -/
def runsA (w : World) : Nat → AppState
  | 0 => initialState
  | n + 1 => (fetchStarWarsDataA w (runsA w n)).state

/-- States along repeated invocations of the second copy from process start. -/
def runsB (w : World) : Nat → AppState
  | 0 => initialState
  | n + 1 => (fetchStarWarsDataB w (runsB w n)).state

/-- States along repeated invocations of the first copy from an arbitrary
state, each invocation against its own remote behaviour. -/
def iterA (ws : Nat → World) (st : AppState) : Nat → AppState
  | 0 => st
  | n + 1 => (fetchStarWarsDataA (ws n) (iterA ws st n)).state

/-- The remote never delivers a well-formed-status response with a
malformed body. -/
def noMalformed (w : World) : Prop :=
  ∀ e s, w e ≠ .response s none

/-- Every endpoint succeeds — a parseable body under a non-error status —
and no display handler of either copy throws on any delivered body: the
hypothesis under which an orchestrator invocation runs to completion. -/
def safeWorld (w : World) : Prop :=
  ∀ e, ∃ s v, w e = .response s (some v) ∧ s < 400 ∧ handlerSafe v = true

/-- Every cached value is handler-safe.  It holds of the empty cache at
process start and is preserved by every fetch against a safe remote, since
the cache only ever stores delivered bodies. -/
def cacheSafe (c : Cache) : Prop :=
  ∀ e v, cacheLookup c e = some v → handlerSafe v = true


/-! ## Concrete worlds and planets used by counterexamples and witnesses -/

/-- A remote that always answers 200 with an empty JSON object.  Note that
`{}` is NOT handler-safe: `displayStarships({})` evaluates
`undefined.slice(0, 3)` and throws. -/
def wOK : World := fun _ => .response 200 (some (.obj []))

/-- A remote that always answers 200 with `{"results": []}` — a body on
which every display handler of both copies runs without throwing, so whole
invocations complete. -/
def wGood : World :=
  fun _ => .response 200 (some (.obj [("results", Json.arr [])]))

/-- A remote on which every request times out. -/
def wTimeout : World := fun _ => .timeout

/-- A remote that always answers 200 with a malformed (unparseable) body. -/
def wCrash : World := fun _ => .response 200 none

/-- A remote that always answers 200 with the JSON value `null`. -/
def wNull : World := fun _ => .response 200 (some .null)

/-- A planet whose population and diameter carry trailing junk after a
large numeric prefix. -/
def junkPlanet : Planet := ⟨"Foo", "2000000000a", "20000a", "arid", []⟩

/-- A planet with an unknown population. -/
def unknownPlanet : Planet := ⟨"Bar", "unknown", "20000", "arid", []⟩

/-! ## Basic facts about the fetch helpers -/

theorem netFetchA_didRequest (w : World) (c : Cache) (e : String) :
    (netFetchA w c e).didRequest = true := by
  unfold netFetchA
  cases w e with
  | timeout => rfl
  | netError => rfl
  | response s b =>
      by_cases h : 400 ≤ s
      · simp [h]
      · cases b <;> simp [h]

theorem netFetchB_didRequest (w : World) (c : Cache) (e : String) :
    (netFetchB w c e).didRequest = true := by
  unfold netFetchB
  cases w e with
  | timeout => rfl
  | netError => rfl
  | response s b =>
      by_cases h : 400 ≤ s
      · simp [h]
      · cases b <;> simp [h]

theorem netFetchA_cache_mono (w : World) (c : Cache) (e : String) :
    c.length ≤ (netFetchA w c e).cache.length := by
  unfold netFetchA
  cases w e with
  | timeout => simp
  | netError => simp
  | response s b =>
      by_cases h : 400 ≤ s
      · simp [h]
      · cases b with
        | some v => simpa [h] using cacheInsert_length_ge c e v
        | none => simp [h]

theorem netFetchB_cache_mono (w : World) (c : Cache) (e : String) :
    c.length ≤ (netFetchB w c e).cache.length := by
  unfold netFetchB
  cases w e with
  | timeout => simp
  | netError => simp
  | response s b =>
      by_cases h : 400 ≤ s
      · simp [h]
      · cases b with
        | some v => simpa [h] using cacheInsert_length_ge c e v
        | none => simp [h]

theorem fetchFromApiA_cache_mono (w : World) (c : Cache) (e : String) :
    c.length ≤ (fetchFromApiA w c e).cache.length := by
  unfold fetchFromApiA
  cases cacheLookup c e with
  | none => exact netFetchA_cache_mono w c e
  | some v =>
      by_cases ht : jsTruthy v
      · simp [ht]
      · simpa [ht] using netFetchA_cache_mono w c e

theorem fetchFromApiB_cache_mono (w : World) (c : Cache) (e : String) :
    c.length ≤ (fetchFromApiB w c e).cache.length := by
  unfold fetchFromApiB
  cases cacheLookup c e with
  | none => exact netFetchB_cache_mono w c e
  | some v =>
      by_cases ht : jsTruthy v
      · simp [ht]
      · simpa [ht] using netFetchB_cache_mono w c e

/-- When `cache[endpoint]` is falsy, both copies go to the network. -/
theorem fetchFromApiA_of_not_hit (w : World) (c : Cache) (e : String)
    (h : cacheHit c e = false) : fetchFromApiA w c e = netFetchA w c e := by
  unfold cacheHit at h
  unfold fetchFromApiA
  cases hl : cacheLookup c e with
  | none => rfl
  | some v =>
      rw [hl] at h
      simp only [jsTruthyOpt] at h
      simp [h]

theorem fetchFromApiB_of_not_hit (w : World) (c : Cache) (e : String)
    (h : cacheHit c e = false) : fetchFromApiB w c e = netFetchB w c e := by
  unfold cacheHit at h
  unfold fetchFromApiB
  cases hl : cacheLookup c e with
  | none => rfl
  | some v =>
      rw [hl] at h
      simp only [jsTruthyOpt] at h
      simp [h]

/-- The second copy's fetch never raises an uncaught exception. -/
theorem netFetchB_ne_crash (w : World) (c : Cache) (e : String) :
    (netFetchB w c e).result ≠ .crash := by
  unfold netFetchB
  cases w e with
  | timeout => simp
  | netError => simp
  | response s b =>
      by_cases h : 400 ≤ s
      · simp [h]
      · cases b <;> simp [h]

theorem fetchFromApiB_ne_crash (w : World) (c : Cache) (e : String) :
    (fetchFromApiB w c e).result ≠ .crash := by
  unfold fetchFromApiB
  cases cacheLookup c e with
  | none => exact netFetchB_ne_crash w c e
  | some v =>
      by_cases ht : jsTruthy v
      · simp [ht]
      · simpa [ht] using netFetchB_ne_crash w c e

/-- Lookup after an insert: the inserted key reads the new value, any
other key is unchanged. -/
theorem cacheLookup_insert (c : Cache) (k : String) (v : Json) (x : String) :
    cacheLookup (cacheInsert c k v) x =
      if k = x then some v else cacheLookup c x := by
  induction c with
  | nil =>
      by_cases h : k = x <;> simp [cacheInsert, cacheLookup, h]
  | cons hd tl ih =>
      obtain ⟨k0, v0⟩ := hd
      by_cases h0 : k0 = k <;> by_cases hx : k = x <;>
        simp_all [cacheInsert, cacheLookup]

/-- The empty cache at process start is handler-safe. -/
theorem cacheSafe_nil : cacheSafe [] := by
  intro e v h
  simp [cacheLookup] at h

theorem cacheSafe_insert (c : Cache) (hc : cacheSafe c) (k : String)
    (v : Json) (hv : handlerSafe v = true) :
    cacheSafe (cacheInsert c k v) := by
  intro x u hu
  rw [cacheLookup_insert] at hu
  by_cases hk : k = x
  · rw [if_pos hk] at hu
    injection hu with h
    subst h
    exact hv
  · rw [if_neg hk] at hu
    exact hc x u hu

/-- Against a safe remote, a cache-missing network fetch succeeds with a
handler-safe body and preserves cache safety. -/
theorem netFetchA_safe (w : World) (hw : safeWorld w) (c : Cache)
    (hc : cacheSafe c) (e : String) :
    (∃ v, (netFetchA w c e).result = .ok v ∧ handlerSafe v = true) ∧
    cacheSafe (netFetchA w c e).cache := by
  obtain ⟨s, v, hwe, hs4, hsafe⟩ := hw e
  unfold netFetchA
  rw [hwe]
  have h4 : ¬ 400 ≤ s := by omega
  refine ⟨⟨v, ?_, hsafe⟩, ?_⟩
  · simp [h4]
  · simpa [h4] using cacheSafe_insert c hc e v hsafe

theorem netFetchB_safe (w : World) (hw : safeWorld w) (c : Cache)
    (hc : cacheSafe c) (e : String) :
    (∃ v, (netFetchB w c e).result = .ok v ∧ handlerSafe v = true) ∧
    cacheSafe (netFetchB w c e).cache := by
  obtain ⟨s, v, hwe, hs4, hsafe⟩ := hw e
  unfold netFetchB
  rw [hwe]
  have h4 : ¬ 400 ≤ s := by omega
  refine ⟨⟨v, ?_, hsafe⟩, ?_⟩
  · simp [h4]
  · simpa [h4] using cacheSafe_insert c hc e v hsafe

/-- Against a safe remote and a handler-safe cache, every fetch of the
first copy resolves with a handler-safe value and keeps the cache safe. -/
theorem fetchFromApiA_safe (w : World) (hw : safeWorld w) (c : Cache)
    (hc : cacheSafe c) (e : String) :
    (∃ v, (fetchFromApiA w c e).result = .ok v ∧ handlerSafe v = true) ∧
    cacheSafe (fetchFromApiA w c e).cache := by
  unfold fetchFromApiA
  cases hl : cacheLookup c e with
  | none => exact netFetchA_safe w hw c hc e
  | some v =>
      by_cases ht : jsTruthy v
      · refine ⟨⟨v, ?_, hc e v hl⟩, ?_⟩
        · simp [ht]
        · simpa [ht] using hc
      · simpa [ht] using netFetchA_safe w hw c hc e

theorem fetchFromApiB_safe (w : World) (hw : safeWorld w) (c : Cache)
    (hc : cacheSafe c) (e : String) :
    (∃ v, (fetchFromApiB w c e).result = .ok v ∧ handlerSafe v = true) ∧
    cacheSafe (fetchFromApiB w c e).cache := by
  unfold fetchFromApiB
  cases hl : cacheLookup c e with
  | none => exact netFetchB_safe w hw c hc e
  | some v =>
      by_cases ht : jsTruthy v
      · refine ⟨⟨v, ?_, hc e v hl⟩, ?_⟩
        · simp [ht]
        · simpa [ht] using hc
      · simpa [ht] using netFetchB_safe w hw c hc e

/-- A safe remote in particular never delivers a malformed body. -/
theorem safeWorld_noMalformed (w : World) (hw : safeWorld w) :
    noMalformed w := by
  intro e s h
  obtain ⟨s2, v, hwe, h2, h3⟩ := hw e
  rw [hwe] at h
  simp at h

/-- Away from malformed bodies, the two copies' fetch helpers coincide. -/
theorem fetch_eq_of_noMalformed (w : World) (h : noMalformed w)
    (c : Cache) (e : String) : fetchFromApiA w c e = fetchFromApiB w c e := by
  have hnet : netFetchA w c e = netFetchB w c e := by
    unfold netFetchA netFetchB
    cases hw : w e with
    | timeout => rfl
    | netError => rfl
    | response s b =>
        cases b with
        | some v => rfl
        | none => exact absurd hw (h e s)
  unfold fetchFromApiA fetchFromApiB
  cases cacheLookup c e with
  | none => exact hnet
  | some v =>
      by_cases ht : jsTruthy v
      · simp [ht]
      · simp [ht, hnet]

/-! ## Step equations for the task loop -/

theorem runTasks_cons_fail (F : World → Cache → String → FetchOut)
    (w : World) (st : AppState) (e : String) (handler : Json → Bool)
    (rest : List SwTask) (err : FetchError)
    (hf : (F w st.cache e).result = .fail err) :
    runTasks F w st ((e, handler) :: rest) =
      ⟨{ st with cache := (F w st.cache e).cache }, [e],
        outboundOf (F w st.cache e) e, .caught err⟩ := by
  simp only [runTasks]
  rw [hf]

theorem runTasks_cons_crash (F : World → Cache → String → FetchOut)
    (w : World) (st : AppState) (e : String) (handler : Json → Bool)
    (rest : List SwTask) (hf : (F w st.cache e).result = .crash) :
    runTasks F w st ((e, handler) :: rest) =
      ⟨{ st with cache := (F w st.cache e).cache }, [e],
        outboundOf (F w st.cache e) e, .crashed⟩ := by
  simp only [runTasks]
  rw [hf]

theorem runTasks_cons_ok_throw (F : World → Cache → String → FetchOut)
    (w : World) (st : AppState) (e : String) (handler : Json → Bool)
    (rest : List SwTask) (v : Json)
    (hf : (F w st.cache e).result = .ok v) (hh : handler v = true) :
    runTasks F w st ((e, handler) :: rest) =
      ⟨{ st with cache := (F w st.cache e).cache,
                 totalDataSize := st.totalDataSize + dataSize v }, [e],
        outboundOf (F w st.cache e) e, .caught .typeError⟩ := by
  simp only [runTasks]
  rw [hf]
  simp [hh]

theorem runTasks_cons_ok_go (F : World → Cache → String → FetchOut)
    (w : World) (st : AppState) (e : String) (handler : Json → Bool)
    (rest : List SwTask) (v : Json)
    (hf : (F w st.cache e).result = .ok v) (hh : handler v = false) :
    runTasks F w st ((e, handler) :: rest) =
      ⟨(runTasks F w { st with
          cache := (F w st.cache e).cache,
          totalDataSize := st.totalDataSize + dataSize v } rest).state,
        e :: (runTasks F w { st with
          cache := (F w st.cache e).cache,
          totalDataSize := st.totalDataSize + dataSize v } rest).calls,
        outboundOf (F w st.cache e) e ++
          (runTasks F w { st with
            cache := (F w st.cache e).cache,
            totalDataSize := st.totalDataSize + dataSize v } rest).outbound,
        (runTasks F w { st with
          cache := (F w st.cache e).cache,
          totalDataSize := st.totalDataSize + dataSize v } rest).outcome⟩ := by
  simp only [runTasks]
  rw [hf]
  simp [hh]

/-! ## Invariants of the sequential task loop -/

theorem runTasks_preserved (F : World → Cache → String → FetchOut) (w : World) :
    ∀ (ts : List SwTask) (st : AppState),
      (runTasks F w st ts).state.fetchCount = st.fetchCount ∧
      (runTasks F w st ts).state.errorCount = st.errorCount ∧
      (runTasks F w st ts).state.lastCharacterId = st.lastCharacterId ∧
      st.totalDataSize ≤ (runTasks F w st ts).state.totalDataSize ∧
      ∃ rest, (runTasks F w st ts).calls ++ rest = ts.map Prod.fst := by
  intro ts
  induction ts with
  | nil => intro st; exact ⟨rfl, rfl, rfl, le_refl _, [], rfl⟩
  | cons t rest ih =>
      obtain ⟨e, handler⟩ := t
      intro st
      cases hf : (F w st.cache e).result with
      | fail err =>
          rw [runTasks_cons_fail F w st e handler rest err hf]
          exact ⟨rfl, rfl, rfl, le_refl _, rest.map Prod.fst, rfl⟩
      | crash =>
          rw [runTasks_cons_crash F w st e handler rest hf]
          exact ⟨rfl, rfl, rfl, le_refl _, rest.map Prod.fst, rfl⟩
      | ok v =>
          cases hh : handler v with
          | true =>
              rw [runTasks_cons_ok_throw F w st e handler rest v hf hh]
              exact ⟨rfl, rfl, rfl, Nat.le_add_right _ _,
                rest.map Prod.fst, rfl⟩
          | false =>
              rw [runTasks_cons_ok_go F w st e handler rest v hf hh]
              obtain ⟨h1, h2, h3, h4, rest2, h5⟩ :=
                ih { st with cache := (F w st.cache e).cache,
                             totalDataSize := st.totalDataSize + dataSize v }
              refine ⟨h1, h2, h3, le_trans (Nat.le_add_right _ _) h4,
                rest2, ?_⟩
              simp [h5]

theorem runTasks_cache_mono (F : World → Cache → String → FetchOut) (w : World)
    (hF : ∀ c e, c.length ≤ (F w c e).cache.length) :
    ∀ (ts : List SwTask) (st : AppState),
      st.cache.length ≤ (runTasks F w st ts).state.cache.length := by
  intro ts
  induction ts with
  | nil => intro st; exact le_refl _
  | cons t rest ih =>
      obtain ⟨e, handler⟩ := t
      intro st
      cases hf : (F w st.cache e).result with
      | fail err =>
          rw [runTasks_cons_fail F w st e handler rest err hf]
          exact hF st.cache e
      | crash =>
          rw [runTasks_cons_crash F w st e handler rest hf]
          exact hF st.cache e
      | ok v =>
          cases hh : handler v with
          | true =>
              rw [runTasks_cons_ok_throw F w st e handler rest v hf hh]
              exact hF st.cache e
          | false =>
              rw [runTasks_cons_ok_go F w st e handler rest v hf hh]
              exact le_trans (hF st.cache e)
                (ih { st with cache := (F w st.cache e).cache,
                              totalDataSize := st.totalDataSize + dataSize v })

theorem runTasks_completed_calls (F : World → Cache → String → FetchOut)
    (w : World) : ∀ (ts : List SwTask) (st : AppState),
      (runTasks F w st ts).outcome = .completed →
      (runTasks F w st ts).calls = ts.map Prod.fst := by
  intro ts
  induction ts with
  | nil => intro st _; rfl
  | cons t rest ih =>
      obtain ⟨e, handler⟩ := t
      intro st
      cases hf : (F w st.cache e).result with
      | fail err =>
          rw [runTasks_cons_fail F w st e handler rest err hf]
          intro h
          exact absurd h (by simp)
      | crash =>
          rw [runTasks_cons_crash F w st e handler rest hf]
          intro h
          exact absurd h (by simp)
      | ok v =>
          cases hh : handler v with
          | true =>
              rw [runTasks_cons_ok_throw F w st e handler rest v hf hh]
              intro h
              exact absurd h (by simp)
          | false =>
              rw [runTasks_cons_ok_go F w st e handler rest v hf hh]
              intro h
              have := ih { st with
                cache := (F w st.cache e).cache,
                totalDataSize := st.totalDataSize + dataSize v } h
              simp [this]

theorem runTasks_ne_crashed (F : World → Cache → String → FetchOut) (w : World)
    (hF : ∀ c e, (F w c e).result ≠ .crash) :
    ∀ (ts : List SwTask) (st : AppState),
      (runTasks F w st ts).outcome ≠ .crashed := by
  intro ts
  induction ts with
  | nil => intro st; simp [runTasks]
  | cons t rest ih =>
      obtain ⟨e, handler⟩ := t
      intro st
      cases hf : (F w st.cache e).result with
      | fail err =>
          rw [runTasks_cons_fail F w st e handler rest err hf]
          simp
      | crash => exact absurd hf (hF st.cache e)
      | ok v =>
          cases hh : handler v with
          | true =>
              rw [runTasks_cons_ok_throw F w st e handler rest v hf hh]
              simp
          | false =>
              rw [runTasks_cons_ok_go F w st e handler rest v hf hh]
              exact ih { st with
                cache := (F w st.cache e).cache,
                totalDataSize := st.totalDataSize + dataSize v }

/-- Against a safe remote with a handler-safe cache, the task loop runs to
completion: every fetch resolves with a handler-safe body, so no display
handler throws. -/
theorem runTasks_safe (F : World → Cache → String → FetchOut) (w : World)
    (hF : ∀ c, cacheSafe c → ∀ e,
      (∃ v, (F w c e).result = .ok v ∧ handlerSafe v = true) ∧
      cacheSafe (F w c e).cache) :
    ∀ (ts : List SwTask) (st : AppState), cacheSafe st.cache →
      (∀ p ∈ ts, ∀ v, handlerSafe v = true → p.2 v = false) →
      (runTasks F w st ts).outcome = .completed ∧
      (runTasks F w st ts).calls = ts.map Prod.fst ∧
      cacheSafe (runTasks F w st ts).state.cache := by
  intro ts
  induction ts with
  | nil => intro st hc _; exact ⟨rfl, rfl, hc⟩
  | cons t rest ih =>
      obtain ⟨e, handler⟩ := t
      intro st hc hts
      obtain ⟨⟨v, hv, hsafe⟩, hc2⟩ := hF st.cache hc e
      have hh : handler v = false := hts (e, handler) (by simp) v hsafe
      rw [runTasks_cons_ok_go F w st e handler rest v hv hh]
      obtain ⟨o1, o2, o3⟩ := ih
        { st with cache := (F w st.cache e).cache,
                  totalDataSize := st.totalDataSize + dataSize v }
        hc2 (fun p hp => hts p (by simp [hp]))
      exact ⟨o1, by simp [o2], o3⟩

/-! ## Invariants of one orchestrator invocation -/

theorem runOrch_fetchCount (F : World → Cache → String → FetchOut) (w : World)
    (st : AppState) (ts : List SwTask) :
    (runOrch F w st ts).state.fetchCount = st.fetchCount + 1 := by
  have hp := runTasks_preserved F w ts { st with fetchCount := st.fetchCount + 1 }
  rcases hR : runTasks F w { st with fetchCount := st.fetchCount + 1 } ts
    with ⟨st1, cs, obs, oc⟩
  rw [hR] at hp
  obtain ⟨h1, h2, h3, h4, h5⟩ := hp
  simp only [runOrch, hR]
  cases oc with
  | caught err => simpa [handleError] using h1
  | crashed => simpa using h1
  | completed =>
      by_cases hid : st1.lastCharacterId ≤ maxlastCharacterId
      · simp only [hid, if_true]
        cases hf : (F w st1.cache ("vehicles/" ++ toString st1.lastCharacterId)).result with
        | fail err => simpa [handleError] using h1
        | crash => simpa using h1
        | ok v =>
            cases hveh : displayVehicle_throws v with
            | true => simpa [handleError, hveh] using h1
            | false => simpa [hveh] using h1
      · simpa [hid] using h1

theorem runOrch_errorCount (F : World → Cache → String → FetchOut) (w : World)
    (st : AppState) (ts : List SwTask) :
    (runOrch F w st ts).state.errorCount =
      st.errorCount +
        (if (runOrch F w st ts).outcome.isCaught then 1 else 0) := by
  have hp := runTasks_preserved F w ts { st with fetchCount := st.fetchCount + 1 }
  rcases hR : runTasks F w { st with fetchCount := st.fetchCount + 1 } ts
    with ⟨st1, cs, obs, oc⟩
  rw [hR] at hp
  obtain ⟨h1, h2, h3, h4, h5⟩ := hp
  simp only at h2
  simp only [runOrch, hR]
  cases oc with
  | caught err => simp [handleError, RunOutcome.isCaught, h2]
  | crashed => simp [RunOutcome.isCaught, h2]
  | completed =>
      by_cases hid : st1.lastCharacterId ≤ maxlastCharacterId
      · simp only [hid, if_true]
        cases hf : (F w st1.cache ("vehicles/" ++ toString st1.lastCharacterId)).result with
        | fail err => simp [handleError, RunOutcome.isCaught, h2]
        | crash => simp [RunOutcome.isCaught, h2]
        | ok v =>
            cases hveh : displayVehicle_throws v with
            | true => simp [handleError, RunOutcome.isCaught, h2, hveh]
            | false => simp [RunOutcome.isCaught, h2, hveh]
      · simp [hid, RunOutcome.isCaught, h2]

theorem runOrch_mono (F : World → Cache → String → FetchOut) (w : World)
    (hF : ∀ c e, c.length ≤ (F w c e).cache.length)
    (st : AppState) (ts : List SwTask) :
    st.fetchCount ≤ (runOrch F w st ts).state.fetchCount ∧
    st.errorCount ≤ (runOrch F w st ts).state.errorCount ∧
    st.totalDataSize ≤ (runOrch F w st ts).state.totalDataSize ∧
    st.cache.length ≤ (runOrch F w st ts).state.cache.length := by
  have hp := runTasks_preserved F w ts { st with fetchCount := st.fetchCount + 1 }
  have hc := runTasks_cache_mono F w hF ts { st with fetchCount := st.fetchCount + 1 }
  rcases hR : runTasks F w { st with fetchCount := st.fetchCount + 1 } ts
    with ⟨st1, cs, obs, oc⟩
  rw [hR] at hp hc
  obtain ⟨h1, h2, h3, h4, h5⟩ := hp
  simp only at h1 h2 h4 hc
  simp only [runOrch, hR]
  cases oc with
  | caught err =>
      refine ⟨?_, ?_, ?_, ?_⟩ <;> simp [handleError, h1, h2, h4, hc] <;> omega
  | crashed =>
      refine ⟨?_, ?_, ?_, ?_⟩ <;> simp [h1, h2, h4, hc] <;> omega
  | completed =>
      by_cases hid : st1.lastCharacterId ≤ maxlastCharacterId
      · simp only [hid, if_true]
        cases hf : (F w st1.cache ("vehicles/" ++ toString st1.lastCharacterId)).result with
        | fail err =>
            have hc2 := hF st1.cache ("vehicles/" ++ toString st1.lastCharacterId)
            refine ⟨?_, ?_, ?_, ?_⟩ <;> simp [handleError, h1, h2, h4] <;> omega
        | crash =>
            have hc2 := hF st1.cache ("vehicles/" ++ toString st1.lastCharacterId)
            refine ⟨?_, ?_, ?_, ?_⟩ <;> simp [h1, h2, h4] <;> omega
        | ok v =>
            have hc2 := hF st1.cache ("vehicles/" ++ toString st1.lastCharacterId)
            cases hveh : displayVehicle_throws v with
            | true =>
                refine ⟨?_, ?_, ?_, ?_⟩ <;>
                  simp [handleError, h1, h2, h4, hveh] <;> omega
            | false =>
                refine ⟨?_, ?_, ?_, ?_⟩ <;> simp [h1, h2, h4, hveh] <;> omega
      · refine ⟨?_, ?_, ?_, ?_⟩ <;> simp [hid, h1, h2, h4, hc] <;> omega

theorem runOrch_ne_crashed (F : World → Cache → String → FetchOut) (w : World)
    (hF : ∀ c e, (F w c e).result ≠ .crash)
    (st : AppState) (ts : List SwTask) :
    (runOrch F w st ts).outcome ≠ .crashed := by
  have hnc := runTasks_ne_crashed F w hF ts { st with fetchCount := st.fetchCount + 1 }
  rcases hR : runTasks F w { st with fetchCount := st.fetchCount + 1 } ts
    with ⟨st1, cs, obs, oc⟩
  rw [hR] at hnc
  simp only at hnc
  simp only [runOrch, hR]
  cases oc with
  | caught err => simp
  | crashed => exact absurd rfl hnc
  | completed =>
      by_cases hid : st1.lastCharacterId ≤ maxlastCharacterId
      · simp only [hid, if_true]
        cases hf : (F w st1.cache ("vehicles/" ++ toString st1.lastCharacterId)).result with
        | fail err => simp
        | crash => exact absurd hf (hF st1.cache _)
        | ok v =>
            cases hveh : displayVehicle_throws v with
            | true => simp [hveh]
            | false => simp [hveh]
      · simp [hid]

/-- Against a safe remote with a handler-safe cache, a whole invocation
completes: the calls are the task endpoints followed by the vehicle
endpoint while the rotating ID is at most 4, the ID advances exactly in
that case, no error is counted, and the cache stays handler-safe. -/
theorem runOrch_safe (F : World → Cache → String → FetchOut) (w : World)
    (hF : ∀ c, cacheSafe c → ∀ e,
      (∃ v, (F w c e).result = .ok v ∧ handlerSafe v = true) ∧
      cacheSafe (F w c e).cache)
    (st : AppState) (ts : List SwTask) (hc : cacheSafe st.cache)
    (hts : ∀ p ∈ ts, ∀ v, handlerSafe v = true → p.2 v = false) :
    (runOrch F w st ts).outcome = .completed ∧
    (runOrch F w st ts).calls =
      ts.map Prod.fst ++ vehicleSuffix st.lastCharacterId ∧
    (runOrch F w st ts).state.lastCharacterId =
      (if st.lastCharacterId ≤ maxlastCharacterId then st.lastCharacterId + 1
       else st.lastCharacterId) ∧
    (runOrch F w st ts).state.errorCount = st.errorCount ∧
    cacheSafe (runOrch F w st ts).state.cache := by
  have hp := runTasks_preserved F w ts { st with fetchCount := st.fetchCount + 1 }
  have hs := runTasks_safe F w hF ts { st with fetchCount := st.fetchCount + 1 }
    hc hts
  rcases hR : runTasks F w { st with fetchCount := st.fetchCount + 1 } ts
    with ⟨st1, cs, obs, oc⟩
  rw [hR] at hp hs
  obtain ⟨h1, h2, h3, h4, h5⟩ := hp
  obtain ⟨hoc, hcs, hc1⟩ := hs
  simp only at h2 h3 hoc hcs hc1
  subst hoc
  subst hcs
  simp only [runOrch, hR]
  by_cases hid : st1.lastCharacterId ≤ maxlastCharacterId
  · have hid2 : st.lastCharacterId ≤ maxlastCharacterId := h3 ▸ hid
    simp only [hid, if_true]
    obtain ⟨⟨v, hv, hsafe⟩, hc2⟩ :=
      hF st1.cache hc1 ("vehicles/" ++ toString st1.lastCharacterId)
    rw [hv]
    have hveh : displayVehicle_throws v = false :=
      (handlerSafe_spec v hsafe).2.2.2.2.2
    refine ⟨?_, ?_, ?_, ?_, ?_⟩
    · simp [hveh]
    · simp [hveh, vehicleSuffix, h3, hid2]
    · simp [hveh, h3, hid2]
    · simp [hveh, h2]
    · simpa [hveh] using hc2
  · have hid2 : ¬ st.lastCharacterId ≤ maxlastCharacterId := h3 ▸ hid
    simp [hid, hid2, vehicleSuffix, h2, h3, hc1]

theorem runOrch_skip (F : World → Cache → String → FetchOut) (w : World)
    (st : AppState) (ts : List SwTask)
    (hid : maxlastCharacterId < st.lastCharacterId) :
    (runOrch F w st ts).state.lastCharacterId = st.lastCharacterId ∧
    ∃ rest, (runOrch F w st ts).calls ++ rest = ts.map Prod.fst := by
  have hp := runTasks_preserved F w ts { st with fetchCount := st.fetchCount + 1 }
  have hcc := runTasks_completed_calls F w ts { st with fetchCount := st.fetchCount + 1 }
  rcases hR : runTasks F w { st with fetchCount := st.fetchCount + 1 } ts
    with ⟨st1, cs, obs, oc⟩
  rw [hR] at hp hcc
  obtain ⟨h1, h2, h3, h4, h5⟩ := hp
  simp only at h3 h5 hcc
  simp only [runOrch, hR]
  cases oc with
  | caught err => exact ⟨by simpa [handleError] using h3, h5⟩
  | crashed => exact ⟨by simpa using h3, h5⟩
  | completed =>
      have hid1 : ¬ st1.lastCharacterId ≤ maxlastCharacterId := by
        rw [h3]; omega
      simp only [hid1, if_false]
      exact ⟨by simpa using h3, by simpa using h5⟩

theorem runOrch_caught (F : World → Cache → String → FetchOut) (w : World)
    (hF : ∀ c e, c.length ≤ (F w c e).cache.length)
    (st : AppState) (ts : List SwTask) (err : FetchError)
    (hco : (runOrch F w st ts).outcome = .caught err) :
    (runOrch F w st ts).state.errorCount = st.errorCount + 1 ∧
    (runOrch F w st ts).state.fetchCount = st.fetchCount + 1 ∧
    st.totalDataSize ≤ (runOrch F w st ts).state.totalDataSize ∧
    st.cache.length ≤ (runOrch F w st ts).state.cache.length ∧
    ∃ rest, (runOrch F w st ts).calls ++ rest =
      ts.map Prod.fst ++ vehicleSuffix st.lastCharacterId := by
  have herr := runOrch_errorCount F w st ts
  rw [hco] at herr
  simp only [RunOutcome.isCaught, if_true] at herr
  have hfc := runOrch_fetchCount F w st ts
  have hm := runOrch_mono F w hF st ts
  refine ⟨herr, hfc, hm.2.2.1, hm.2.2.2, ?_⟩
  have hp := runTasks_preserved F w ts { st with fetchCount := st.fetchCount + 1 }
  have hcc := runTasks_completed_calls F w ts { st with fetchCount := st.fetchCount + 1 }
  rcases hR : runTasks F w { st with fetchCount := st.fetchCount + 1 } ts
    with ⟨st1, cs, obs, oc⟩
  rw [hR] at hp hcc
  obtain ⟨h1, h2, h3, h5, h6⟩ := hp
  simp only at h3 h6 hcc
  rw [runOrch] at hco ⊢
  simp only [hR] at hco ⊢
  cases oc with
  | caught e2 =>
      obtain ⟨rest, hrest⟩ := h6
      exact ⟨rest ++ vehicleSuffix st.lastCharacterId, by simp [← hrest]⟩
  | crashed => simp at hco
  | completed =>
      by_cases hid : st1.lastCharacterId ≤ maxlastCharacterId
      · simp only [hid, if_true] at hco ⊢
        cases hf : (F w st1.cache ("vehicles/" ++ toString st1.lastCharacterId)).result with
        | fail e2 =>
            refine ⟨[], ?_⟩
            have hcs : cs = ts.map Prod.fst := hcc rfl
            have hid2 : st.lastCharacterId ≤ maxlastCharacterId := h3 ▸ hid
            simp [hcs, vehicleSuffix, h3, hid2]
        | crash => rw [hf] at hco; simp at hco
        | ok v =>
            rw [hf] at hco
            cases hveh : displayVehicle_throws v with
            | true =>
                refine ⟨[], ?_⟩
                have hcs : cs = ts.map Prod.fst := hcc rfl
                have hid2 : st.lastCharacterId ≤ maxlastCharacterId := h3 ▸ hid
                simp [hveh, hcs, vehicleSuffix, h3, hid2]
            | false => simp [hveh] at hco
      · simp only [hid, if_false] at hco
        simp at hco

/-! ## Per-task handler safety and per-copy instantiations -/

theorem tasksA_handlers :
    ∀ p ∈ tasksA, ∀ v, handlerSafe v = true → p.2 v = false := by
  intro p hp v hv
  obtain ⟨h1, h2, h3, h4, h5, h6⟩ := handlerSafe_spec v hv
  simp only [tasksA, List.mem_cons, List.not_mem_nil, or_false] at hp
  rcases hp with rfl | rfl | rfl | rfl
  · exact h1
  · exact h2
  · exact h3
  · exact h5

theorem tasksB_handlers (id : Nat) :
    ∀ p ∈ tasksB id, ∀ v, handlerSafe v = true → p.2 v = false := by
  intro p hp v hv
  obtain ⟨h1, h2, h3, h4, h5, h6⟩ := handlerSafe_spec v hv
  simp only [tasksB, List.mem_cons, List.not_mem_nil, or_false] at hp
  rcases hp with rfl | rfl | rfl | rfl
  · exact h1
  · exact h2
  · exact h4
  · exact h5

theorem fetchStarWarsDataA_safe (w : World) (hw : safeWorld w)
    (st : AppState) (hc : cacheSafe st.cache) :
    (fetchStarWarsDataA w st).outcome = .completed ∧
    (fetchStarWarsDataA w st).calls =
      tasksAEndpoints ++ vehicleSuffix st.lastCharacterId ∧
    (fetchStarWarsDataA w st).state.lastCharacterId =
      (if st.lastCharacterId ≤ maxlastCharacterId then st.lastCharacterId + 1
       else st.lastCharacterId) ∧
    cacheSafe (fetchStarWarsDataA w st).state.cache := by
  have h := runOrch_safe fetchFromApiA w
    (fun c hc2 e => fetchFromApiA_safe w hw c hc2 e) st tasksA hc tasksA_handlers
  exact ⟨h.1, h.2.1, h.2.2.1, h.2.2.2.2⟩

theorem fetchStarWarsDataB_safe (w : World) (hw : safeWorld w)
    (st : AppState) (hc : cacheSafe st.cache) :
    (fetchStarWarsDataB w st).outcome = .completed ∧
    (fetchStarWarsDataB w st).calls =
      tasksBEndpoints st.lastCharacterId ++ vehicleSuffix st.lastCharacterId ∧
    (fetchStarWarsDataB w st).state.lastCharacterId =
      (if st.lastCharacterId ≤ maxlastCharacterId then st.lastCharacterId + 1
       else st.lastCharacterId) ∧
    cacheSafe (fetchStarWarsDataB w st).state.cache := by
  have h := runOrch_safe fetchFromApiB w
    (fun c hc2 e => fetchFromApiB_safe w hw c hc2 e) st
    (tasksB st.lastCharacterId) hc (tasksB_handlers st.lastCharacterId)
  exact ⟨h.1, h.2.1, h.2.2.1, h.2.2.2.2⟩

theorem runsA_inv (w : World) (hw : safeWorld w) :
    ∀ n, cacheSafe (runsA w n).cache ∧
      (n ≤ 4 → (runsA w n).lastCharacterId = n + 1) := by
  intro n
  induction n with
  | zero => exact ⟨cacheSafe_nil, fun _ => rfl⟩
  | succ m ih =>
      have hsafe := fetchStarWarsDataA_safe w hw (runsA w m) ih.1
      refine ⟨?_, ?_⟩
      · simpa [runsA] using hsafe.2.2.2
      · intro hm
        have hm2 : m ≤ 4 := by omega
        have hid := ih.2 hm2
        have hle : m + 1 ≤ maxlastCharacterId := by
          unfold maxlastCharacterId
          omega
        have h2 := hsafe.2.2.1
        rw [hid] at h2
        simp only [runsA]
        rw [h2]
        simp [hle]

theorem runsB_inv (w : World) (hw : safeWorld w) :
    ∀ n, cacheSafe (runsB w n).cache ∧
      (n ≤ 4 → (runsB w n).lastCharacterId = n + 1) := by
  intro n
  induction n with
  | zero => exact ⟨cacheSafe_nil, fun _ => rfl⟩
  | succ m ih =>
      have hsafe := fetchStarWarsDataB_safe w hw (runsB w m) ih.1
      refine ⟨?_, ?_⟩
      · simpa [runsB] using hsafe.2.2.2
      · intro hm
        have hm2 : m ≤ 4 := by omega
        have hid := ih.2 hm2
        have hle : m + 1 ≤ maxlastCharacterId := by
          unfold maxlastCharacterId
          omega
        have h2 := hsafe.2.2.1
        rw [hid] at h2
        simp only [runsB]
        rw [h2]
        simp [hle]

theorem iterA_id_stays (ws : Nat → World) (st : AppState)
    (hid : 4 < st.lastCharacterId) :
    ∀ n, 4 < (iterA ws st n).lastCharacterId := by
  intro n
  induction n with
  | zero => exact hid
  | succ m ih =>
      have h := runOrch_skip fetchFromApiA (ws m) (iterA ws st m) tasksA
        (by unfold maxlastCharacterId; omega)
      simp only [iterA, fetchStarWarsDataA]
      rw [h.1]
      exact ih

/-! ## The two copies agree on safe runs -/

theorem runTasks_eq_of_safe (w : World) (hw : safeWorld w) :
    ∀ (ts ts2 : List SwTask), ts.map Prod.fst = ts2.map Prod.fst →
      (∀ p ∈ ts, ∀ v, handlerSafe v = true → p.2 v = false) →
      (∀ p ∈ ts2, ∀ v, handlerSafe v = true → p.2 v = false) →
      ∀ st : AppState, cacheSafe st.cache →
      runTasks fetchFromApiA w st ts = runTasks fetchFromApiB w st ts2 := by
  intro ts
  induction ts with
  | nil =>
      intro ts2 hmap _ _ st _
      cases ts2 with
      | nil => rfl
      | cons a l => simp at hmap
  | cons t rest ih =>
      obtain ⟨e, hd1⟩ := t
      intro ts2 hmap hts hts2 st hc
      cases ts2 with
      | nil => simp at hmap
      | cons t2 rest2 =>
          obtain ⟨e2, hd2⟩ := t2
          simp only [List.map_cons, List.cons.injEq] at hmap
          obtain ⟨he, hrest⟩ := hmap
          subst he
          obtain ⟨⟨v, hv, hsafe⟩, hc2⟩ := fetchFromApiA_safe w hw st.cache hc e
          have hfeq : fetchFromApiB w st.cache e = fetchFromApiA w st.cache e :=
            (fetch_eq_of_noMalformed w (safeWorld_noMalformed w hw) st.cache e).symm
          have hh1 : hd1 v = false := hts (e, hd1) (by simp) v hsafe
          have hh2 : hd2 v = false := hts2 (e, hd2) (by simp) v hsafe
          rw [runTasks_cons_ok_go fetchFromApiA w st e hd1 rest v hv hh1]
          rw [runTasks_cons_ok_go fetchFromApiB w st e hd2 rest2 v
            (by rw [hfeq]; exact hv) hh2]
          rw [hfeq]
          rw [ih rest2 hrest (fun p hp => hts p (by simp [hp]))
            (fun p hp => hts2 p (by simp [hp]))
            { st with cache := (fetchFromApiA w st.cache e).cache,
                      totalDataSize := st.totalDataSize + dataSize v } hc2]

theorem runOrch_eq_of_safe (w : World) (hw : safeWorld w)
    (ts ts2 : List SwTask) (hmap : ts.map Prod.fst = ts2.map Prod.fst)
    (hts : ∀ p ∈ ts, ∀ v, handlerSafe v = true → p.2 v = false)
    (hts2 : ∀ p ∈ ts2, ∀ v, handlerSafe v = true → p.2 v = false)
    (st : AppState) (hc : cacheSafe st.cache) :
    runOrch fetchFromApiA w st ts = runOrch fetchFromApiB w st ts2 := by
  have hfe := fetch_eq_of_noMalformed w (safeWorld_noMalformed w hw)
  simp only [runOrch]
  rw [runTasks_eq_of_safe w hw ts ts2 hmap hts hts2
    { st with fetchCount := st.fetchCount + 1 } hc]
  simp only [hfe]

/-! ## Shape of a successful fetch -/

theorem netFetchA_ok_cache (w : World) (c : Cache) (e : String) (v : Json)
    (h : (netFetchA w c e).result = .ok v) :
    (netFetchA w c e).cache = cacheInsert c e v := by
  unfold netFetchA at h ⊢
  revert h
  cases hw : w e with
  | timeout => intro h; exact absurd h (by simp)
  | netError => intro h; exact absurd h (by simp)
  | response s b =>
      intro h
      by_cases h4 : 400 ≤ s
      · simp [h4] at h
      · cases b with
        | some u =>
            simp [h4] at h ⊢
            simp [h]
        | none => simp [h4] at h

theorem netFetchB_ok_cache (w : World) (c : Cache) (e : String) (v : Json)
    (h : (netFetchB w c e).result = .ok v) :
    (netFetchB w c e).cache = cacheInsert c e v := by
  unfold netFetchB at h ⊢
  revert h
  cases hw : w e with
  | timeout => intro h; exact absurd h (by simp)
  | netError => intro h; exact absurd h (by simp)
  | response s b =>
      intro h
      by_cases h4 : 400 ≤ s
      · simp [h4] at h
      · cases b with
        | some u =>
            simp [h4] at h ⊢
            simp [h]
        | none => simp [h4] at h

theorem fetchFromApiA_ok_shape (w : World) (c : Cache) (e : String) (v : Json)
    (h : (fetchFromApiA w c e).result = .ok v) :
    ((fetchFromApiA w c e).cache = c ∧ cacheLookup c e = some v) ∨
    (fetchFromApiA w c e).cache = cacheInsert c e v := by
  unfold fetchFromApiA at h ⊢
  revert h
  cases hl : cacheLookup c e with
  | none =>
      intro h
      exact Or.inr (netFetchA_ok_cache w c e v h)
  | some u =>
      intro h
      by_cases ht : jsTruthy u
      · have hu : u = v := by simpa [ht] using h
        subst hu
        exact Or.inl ⟨by simp [ht], rfl⟩
      · have h2 : (netFetchA w c e).result = FetchResult.ok v := by
          simpa [ht] using h
        refine Or.inr ?_
        simp only [ht, if_false]
        exact netFetchA_ok_cache w c e v h2

theorem fetchFromApiB_ok_shape (w : World) (c : Cache) (e : String) (v : Json)
    (h : (fetchFromApiB w c e).result = .ok v) :
    ((fetchFromApiB w c e).cache = c ∧ cacheLookup c e = some v) ∨
    (fetchFromApiB w c e).cache = cacheInsert c e v := by
  unfold fetchFromApiB at h ⊢
  revert h
  cases hl : cacheLookup c e with
  | none =>
      intro h
      exact Or.inr (netFetchB_ok_cache w c e v h)
  | some u =>
      intro h
      by_cases ht : jsTruthy u
      · have hu : u = v := by simpa [ht] using h
        subst hu
        exact Or.inl ⟨by simp [ht], rfl⟩
      · have h2 : (netFetchB w c e).result = FetchResult.ok v := by
          simpa [ht] using h
        refine Or.inr ?_
        simp only [ht, if_false]
        exact netFetchB_ok_cache w c e v h2

/-- A fetch that finds a truthy value under the key returns it without
a request. -/
theorem fetchFromApiA_hit (w : World) (c : Cache) (e : String) (v : Json)
    (hl : cacheLookup c e = some v) (ht : jsTruthy v = true) :
    fetchFromApiA w c e = ⟨.ok v, c, false⟩ := by
  unfold fetchFromApiA
  rw [hl]
  simp [ht]

theorem fetchFromApiB_hit (w : World) (c : Cache) (e : String) (v : Json)
    (hl : cacheLookup c e = some v) (ht : jsTruthy v = true) :
    fetchFromApiB w c e = ⟨.ok v, c, false⟩ := by
  unfold fetchFromApiB
  rw [hl]
  simp [ht]

/-! ## Claim C1 -/

/-- Claim C1 counterexample: on a remote whose body parses to the JSON
value `null`, the first `fetchFromApi("films/")` call succeeds and stores
the parsed body in the cache, yet the second call issues another outbound
request, because the cache check `if (cache[endpoint])` tests truthiness
and `null` is falsy.  This refutes the claim that the second call never
issues a new request after a successful first call. -/
theorem claim1_counterexample :
    (fetchFromApiA wNull [] "films/").result = .ok .null ∧
    cacheLookup (fetchFromApiA wNull [] "films/").cache "films/" =
      some .null ∧
    (fetchFromApiA wNull (fetchFromApiA wNull [] "films/").cache
        "films/").didRequest = true :=
  ⟨rfl, rfl, rfl⟩

/-- Claim C1 (amended): if a `fetchFromApi` call succeeds with a parsed
body `v` that is truthy, then a second call for the same endpoint returns
exactly the stored value with no outbound request and no cache change —
in both copies.  (The unamended claim fails when `v` is falsy, e.g. the
JSON value null; see the counterexample.) -/
theorem claim1_cache_amended (w : World) (c : Cache) (e : String) (v : Json)
    (hv : jsTruthy v = true) :
    ((fetchFromApiA w c e).result = .ok v →
       fetchFromApiA w (fetchFromApiA w c e).cache e =
         ⟨.ok v, (fetchFromApiA w c e).cache, false⟩) ∧
    ((fetchFromApiB w c e).result = .ok v →
       fetchFromApiB w (fetchFromApiB w c e).cache e =
         ⟨.ok v, (fetchFromApiB w c e).cache, false⟩) := by
  constructor
  · intro h1
    rcases fetchFromApiA_ok_shape w c e v h1 with ⟨hc, hl⟩ | hc
    · rw [hc]
      exact fetchFromApiA_hit w c e v hl hv
    · rw [hc]
      exact fetchFromApiA_hit w (cacheInsert c e v) e v
        (cacheLookup_insert_self c e v) hv
  · intro h1
    rcases fetchFromApiB_ok_shape w c e v h1 with ⟨hc, hl⟩ | hc
    · rw [hc]
      exact fetchFromApiB_hit w c e v hl hv
    · rw [hc]
      exact fetchFromApiB_hit w (cacheInsert c e v) e v
        (cacheLookup_insert_self c e v) hv

/-- Witness for C1's amended theorem at a concrete input. -/
theorem claim1_witness :
    fetchFromApiA wOK (fetchFromApiA wOK [] "films/").cache "films/" =
      ⟨.ok (.obj []), (fetchFromApiA wOK [] "films/").cache, false⟩ :=
  (claim1_cache_amended wOK [] "films/" (.obj []) rfl).1 rfl

/-! ## Claim C2 -/

/-- Claim C2: on a cache miss, a timeout yields the timeout error and an
HTTP status >= 400 yields the status error, in both copies, with no cache
write; a malformed body yields the parse error with no cache write in the
second copy — but in the first copy it raises an uncaught exception
instead of rejecting (the `try/catch` of lines 58-70 wraps only the
synchronous registration of the `end` listener, so the `JSON.parse` throw
inside the listener escapes): the ParseError conjunct of the claim is what
the code intends (and the second copy implements) but the first copy's
code breaks it.  No failure path writes a cache entry. -/
theorem claim2_fetch_failures (w : World) (c : Cache) (e : String)
    (h : cacheHit c e = false) :
    (w e = .timeout →
       fetchFromApiA w c e = ⟨.fail (.timeoutError e), c, true⟩ ∧
       fetchFromApiB w c e = ⟨.fail (.timeoutError e), c, true⟩) ∧
    (∀ s b, w e = .response s b → 400 ≤ s →
       fetchFromApiA w c e = ⟨.fail (.httpStatusError s), c, true⟩ ∧
       fetchFromApiB w c e = ⟨.fail (.httpStatusError s), c, true⟩) ∧
    (∀ s, w e = .response s none → s < 400 →
       fetchFromApiB w c e = ⟨.fail .parseError, c, true⟩ ∧
       fetchFromApiA w c e = ⟨.crash, c, true⟩) := by
  rw [fetchFromApiA_of_not_hit w c e h, fetchFromApiB_of_not_hit w c e h]
  refine ⟨?_, ?_, ?_⟩
  · intro hw
    unfold netFetchA netFetchB
    rw [hw]
    exact ⟨rfl, rfl⟩
  · intro s b hw h4
    unfold netFetchA netFetchB
    rw [hw]
    simp [h4]
  · intro s hw h4
    unfold netFetchA netFetchB
    rw [hw]
    have : ¬ 400 ≤ s := by omega
    simp [this]

/-- Witness for C2 at concrete inputs: a timeout on an empty cache, and
the divergent malformed-body behaviour of the two copies. -/
theorem claim2_witness :
    (fetchFromApiA wTimeout [] "films/" =
       ⟨.fail (.timeoutError "films/"), [], true⟩ ∧
     fetchFromApiB wTimeout [] "films/" =
       ⟨.fail (.timeoutError "films/"), [], true⟩) ∧
    (fetchFromApiB wCrash [] "films/" = ⟨.fail .parseError, [], true⟩ ∧
     fetchFromApiA wCrash [] "films/" = ⟨.crash, [], true⟩) :=
  ⟨(claim2_fetch_failures wTimeout [] "films/" rfl).1 rfl,
   (claim2_fetch_failures wCrash [] "films/" rfl).2.2 200 rfl (by omega)⟩

/-! ## Claim C10 -/

/-- Claim C10: the cache-hit test is `if (cache[endpoint])`, i.e.
truthiness of the stored value, not key presence: a stored truthy value is
returned as-is with no outbound request; a stored falsy JSON value (null,
false, 0, or the empty string) triggers another outbound request. -/
theorem claim10_truthy_cache (w : World) (c : Cache) (e : String) (v : Json)
    (h : cacheLookup c e = some v) :
    (jsTruthy v = true →
       fetchFromApiA w c e = ⟨.ok v, c, false⟩ ∧
       fetchFromApiB w c e = ⟨.ok v, c, false⟩) ∧
    (v = .null ∨ v = .bool false ∨ v = .num 0 ∨ v = .str "" →
       (fetchFromApiA w c e).didRequest = true ∧
       (fetchFromApiB w c e).didRequest = true) := by
  constructor
  · intro ht
    exact ⟨fetchFromApiA_hit w c e v h ht, fetchFromApiB_hit w c e v h ht⟩
  · intro hv
    have ht : jsTruthy v = false := by
      rcases hv with rfl | rfl | rfl | rfl <;> rfl
    have hh : cacheHit c e = false := by
      unfold cacheHit
      rw [h]
      simpa [jsTruthyOpt] using ht
    rw [fetchFromApiA_of_not_hit w c e hh, fetchFromApiB_of_not_hit w c e hh]
    exact ⟨netFetchA_didRequest w c e, netFetchB_didRequest w c e⟩

/-- Witness for C10: a truthy cached object is served from the cache; a
cached `null` triggers a new outbound request, in both copies. -/
theorem claim10_witness :
    (fetchFromApiA wOK [("films/", Json.obj [])] "films/" =
       ⟨.ok (.obj []), [("films/", Json.obj [])], false⟩ ∧
     fetchFromApiB wOK [("films/", Json.obj [])] "films/" =
       ⟨.ok (.obj []), [("films/", Json.obj [])], false⟩) ∧
    ((fetchFromApiA wOK [("films/", Json.null)] "films/").didRequest = true ∧
     (fetchFromApiB wOK [("films/", Json.null)] "films/").didRequest = true) :=
  ⟨(claim10_truthy_cache wOK [("films/", Json.obj [])] "films/"
      (.obj []) rfl).1 rfl,
   (claim10_truthy_cache wOK [("films/", Json.null)] "films/"
      .null rfl).2 (Or.inl rfl)⟩

/-! ## Claim C3 -/

/-- Claim C3: in the second copy every single-fetch failure (timeout,
status >= 400, malformed body, socket error) is delivered as a rejection,
caught at the orchestrator boundary and tallied — the invocation never
crashes the process; and in both copies the error counter accounts exactly
for the caught-failure path.  However the claim is broken by the first
copy: a malformed body there throws outside the `try/catch` (the `end`
listener runs after the synchronous registration the try wraps), the
promise never settles, and the exception reaches the event loop uncaught —
shown at the concrete failing input `wCrash` (HTTP 200 with an unparseable
body), where the invocation ends crashed instead of caught. -/
theorem claim3_no_crash (w : World) (st : AppState) :
    (fetchStarWarsDataB w st).outcome ≠ .crashed ∧
    (fetchStarWarsDataB w st).state.errorCount =
      st.errorCount +
        (if (fetchStarWarsDataB w st).outcome.isCaught then 1 else 0) ∧
    (fetchStarWarsDataA w st).state.errorCount =
      st.errorCount +
        (if (fetchStarWarsDataA w st).outcome.isCaught then 1 else 0) ∧
    (fetchStarWarsDataA wCrash initialState).outcome = .crashed :=
  ⟨runOrch_ne_crashed fetchFromApiB w
      (fun c e => fetchFromApiB_ne_crash w c e) st _,
   runOrch_errorCount fetchFromApiB w st _,
   runOrch_errorCount fetchFromApiA w st _,
   rfl⟩

/-! ## Claim C4 -/

/-- Claim C4: no operation decreases `api_calls`, `data_size`, `errors` or
`cache_size`: one orchestrator invocation (either copy) only grows all
four, and a bare `fetchFromApi` call (the only other cache writer) only
grows the cache.  (The HTTP routes merely read these values.) -/
theorem claim4_monotonic (w : World) (st : AppState) (c : Cache)
    (e : String) :
    (st.fetchCount ≤ (fetchStarWarsDataA w st).state.fetchCount ∧
     st.errorCount ≤ (fetchStarWarsDataA w st).state.errorCount ∧
     st.totalDataSize ≤ (fetchStarWarsDataA w st).state.totalDataSize ∧
     cacheSize st ≤ cacheSize (fetchStarWarsDataA w st).state) ∧
    (st.fetchCount ≤ (fetchStarWarsDataB w st).state.fetchCount ∧
     st.errorCount ≤ (fetchStarWarsDataB w st).state.errorCount ∧
     st.totalDataSize ≤ (fetchStarWarsDataB w st).state.totalDataSize ∧
     cacheSize st ≤ cacheSize (fetchStarWarsDataB w st).state) ∧
    c.length ≤ (fetchFromApiA w c e).cache.length ∧
    c.length ≤ (fetchFromApiB w c e).cache.length :=
  ⟨runOrch_mono fetchFromApiA w
      (fun c e => fetchFromApiA_cache_mono w c e) st _,
   runOrch_mono fetchFromApiB w
      (fun c e => fetchFromApiB_cache_mono w c e) st _,
   fetchFromApiA_cache_mono w c e,
   fetchFromApiB_cache_mono w c e⟩

/-! ## Claim C5 -/

/-- Claim C5 counterexample: starting from the initial state on a remote
where every request times out, the invocation's fetch step fails (the
outcome is the caught timeout) and yet `api_calls` (fetchCount) has been
incremented from 0 to 1, because `fetchCount++` runs before any fetch.
This refutes the claim that a failing invocation does not increment
`api_calls`. -/
theorem claim5_counterexample :
    initialState.fetchCount = 0 ∧
    (fetchStarWarsDataA wTimeout initialState).outcome =
      .caught (.timeoutError "people/1") ∧
    (fetchStarWarsDataA wTimeout initialState).state.fetchCount = 1 :=
  ⟨rfl, rfl, rfl⟩

/-- Claim C5 (amended): `api_calls` counts orchestrator invocation
attempts, not successful fetches: both copies increment it exactly once
per invocation, unconditionally — before any fetch and regardless of
later failures. -/
theorem claim5_fetchCount_amended (w : World) (st : AppState) :
    (fetchStarWarsDataA w st).state.fetchCount = st.fetchCount + 1 ∧
    (fetchStarWarsDataB w st).state.fetchCount = st.fetchCount + 1 :=
  ⟨runOrch_fetchCount fetchFromApiA w st _,
   runOrch_fetchCount fetchFromApiB w st _⟩

/-! ## Claim C7 -/

/-- Claim C7: when an invocation's fetch rejection is caught (any
timeout / status / network failure, and parse failures in the second
copy), the error counter is incremented exactly once, the initial
`fetchCount++` and all statistics accumulated before the failure stand
(no rollback: sizes and cache only grew), and no further endpoints were
fetched (the call trace stops within the planned sequence).  The claim's
"any step fails" reading is broken by the first copy's malformed-body
path: at the concrete failing input `wCrash` the step fails but the
single error-handling path never runs — the invocation crashes with the
error counter untouched. -/
theorem claim7_failure_path (w : World) (st : AppState) (err : FetchError) :
    ((fetchStarWarsDataA w st).outcome = .caught err →
       (fetchStarWarsDataA w st).state.errorCount = st.errorCount + 1 ∧
       (fetchStarWarsDataA w st).state.fetchCount = st.fetchCount + 1 ∧
       st.totalDataSize ≤ (fetchStarWarsDataA w st).state.totalDataSize ∧
       cacheSize st ≤ cacheSize (fetchStarWarsDataA w st).state ∧
       ∃ rest, (fetchStarWarsDataA w st).calls ++ rest =
         tasksAEndpoints ++ vehicleSuffix st.lastCharacterId) ∧
    ((fetchStarWarsDataB w st).outcome = .caught err →
       (fetchStarWarsDataB w st).state.errorCount = st.errorCount + 1 ∧
       (fetchStarWarsDataB w st).state.fetchCount = st.fetchCount + 1 ∧
       st.totalDataSize ≤ (fetchStarWarsDataB w st).state.totalDataSize ∧
       cacheSize st ≤ cacheSize (fetchStarWarsDataB w st).state ∧
       ∃ rest, (fetchStarWarsDataB w st).calls ++ rest =
         tasksBEndpoints st.lastCharacterId ++
           vehicleSuffix st.lastCharacterId) ∧
    ((fetchStarWarsDataA wCrash initialState).outcome = .crashed ∧
     (fetchStarWarsDataA wCrash initialState).state.errorCount =
       initialState.errorCount) :=
  ⟨fun h => runOrch_caught fetchFromApiA w
      (fun c e => fetchFromApiA_cache_mono w c e) st tasksA err h,
   fun h => runOrch_caught fetchFromApiB w
      (fun c e => fetchFromApiB_cache_mono w c e) st
      (tasksB st.lastCharacterId) err h,
   rfl, rfl⟩

/-- Witness for C7 at a concrete failing invocation: the first fetch times
out, the error counter goes to exactly 1, `api_calls` to 1, the sizes do
not shrink and the call trace stopped inside the planned sequence. -/
theorem claim7_witness :
    (fetchStarWarsDataA wTimeout initialState).state.errorCount =
      initialState.errorCount + 1 ∧
    (fetchStarWarsDataA wTimeout initialState).state.fetchCount =
      initialState.fetchCount + 1 ∧
    initialState.totalDataSize ≤
      (fetchStarWarsDataA wTimeout initialState).state.totalDataSize ∧
    cacheSize initialState ≤
      cacheSize (fetchStarWarsDataA wTimeout initialState).state ∧
    ∃ rest, (fetchStarWarsDataA wTimeout initialState).calls ++ rest =
      tasksAEndpoints ++ vehicleSuffix initialState.lastCharacterId :=
  (claim7_failure_path wTimeout initialState
      (.timeoutError "people/1")).1 rfl

/-! ## Claim C6 -/

/-- Claim C6: from the initial state (rotating ID 1), under a remote where
every fetch succeeds with a body on which no display handler throws (the
sense in which five invocations in sequence are "successful" — at wGood,
say), invocations 1-4 of either copy fetch exactly the task endpoints plus
`vehicles/1` ... `vehicles/4` respectively, and invocation 5 fetches only
the task endpoints (the vehicle step is skipped); moreover once the
rotating ID exceeds the ceiling it never changes again and no later
invocation of the first copy ever passes a vehicle endpoint to
fetchFromApi (its calls all lie in the fixed task list), for any sequence
of remote behaviours — successful, failing, or with handler throws. -/
theorem claim6_rotating_vehicle :
    (∀ w, safeWorld w → ∀ n, n < 4 →
       (fetchStarWarsDataA w (runsA w n)).calls =
         tasksAEndpoints ++ ["vehicles/" ++ toString (n + 1)]) ∧
    (∀ w, safeWorld w →
       (fetchStarWarsDataA w (runsA w 4)).calls = tasksAEndpoints) ∧
    (∀ w, safeWorld w → ∀ n, n < 4 →
       (fetchStarWarsDataB w (runsB w n)).calls =
         tasksBEndpoints (n + 1) ++ ["vehicles/" ++ toString (n + 1)]) ∧
    (∀ w, safeWorld w →
       (fetchStarWarsDataB w (runsB w 4)).calls = tasksBEndpoints 5) ∧
    (∀ (ws : Nat → World) (st : AppState), 4 < st.lastCharacterId → ∀ n,
       4 < (iterA ws st n).lastCharacterId ∧
       ∀ e, e ∈ (fetchStarWarsDataA (ws n) (iterA ws st n)).calls →
         e ∈ tasksAEndpoints) := by
  refine ⟨?_, ?_, ?_, ?_, ?_⟩
  · intro w hs n hn
    have hid := (runsA_inv w hs n).2 (by omega)
    have hcalls :=
      (fetchStarWarsDataA_safe w hs (runsA w n) (runsA_inv w hs n).1).2.1
    rw [hid] at hcalls
    have hle : n + 1 ≤ maxlastCharacterId := by
      unfold maxlastCharacterId
      omega
    rw [hcalls]
    simp [vehicleSuffix, hle]
  · intro w hs
    have hid := (runsA_inv w hs 4).2 (by omega)
    have hcalls :=
      (fetchStarWarsDataA_safe w hs (runsA w 4) (runsA_inv w hs 4).1).2.1
    rw [hid] at hcalls
    have hle : ¬ 4 + 1 ≤ maxlastCharacterId := by
      unfold maxlastCharacterId
      omega
    rw [hcalls]
    simp [vehicleSuffix, hle]
  · intro w hs n hn
    have hid := (runsB_inv w hs n).2 (by omega)
    have hcalls :=
      (fetchStarWarsDataB_safe w hs (runsB w n) (runsB_inv w hs n).1).2.1
    rw [hid] at hcalls
    have hle : n + 1 ≤ maxlastCharacterId := by
      unfold maxlastCharacterId
      omega
    rw [hcalls]
    simp [vehicleSuffix, hle]
  · intro w hs
    have hid := (runsB_inv w hs 4).2 (by omega)
    have hcalls :=
      (fetchStarWarsDataB_safe w hs (runsB w 4) (runsB_inv w hs 4).1).2.1
    rw [hid] at hcalls
    have hle : ¬ 4 + 1 ≤ maxlastCharacterId := by
      unfold maxlastCharacterId
      omega
    rw [hcalls]
    simp [vehicleSuffix, hle]
  · intro ws st h4 n
    refine ⟨iterA_id_stays ws st h4 n, ?_⟩
    have hsk := runOrch_skip fetchFromApiA (ws n) (iterA ws st n) tasksA
      (by unfold maxlastCharacterId; exact iterA_id_stays ws st h4 n)
    obtain ⟨rest, hrest⟩ := hsk.2
    intro e he
    rw [← tasksA_map_fst, ← hrest]
    exact List.mem_append_left rest he

/-- Witness for C6: on the remote `wGood` (every body `{"results": []}`,
on which every display handler completes), the first invocation of the
first copy fetches the four task endpoints and then `vehicles/1`. -/
theorem claim6_witness :
    (fetchStarWarsDataA wGood (runsA wGood 0)).calls =
      tasksAEndpoints ++ ["vehicles/" ++ toString (0 + 1)] :=
  claim6_rotating_vehicle.1 wGood
    (fun _ => ⟨200, .obj [("results", Json.arr [])], rfl, by omega, by decide⟩)
    0 (by omega)

/-! ## Claim C8 -/

/-- Claim C8 counterexample: the planet with population "2000000000a" and
diameter "20000a" has non-numeric string fields (not digit strings), yet
the second copy's `displayLargePlanets` displays it: `parseInt` reads the
numeric prefixes 2000000000 and 20000, which pass both thresholds.  The
first copy excludes it (`Number` yields NaN).  This refutes "never appears
in the output of both duplicated copies". -/
theorem claim8_counterexample :
    isDigitString "2000000000a" = false ∧
    ("2000000000a" : String) ≠ "unknown" ∧
    displayLargePlanetsB [junkPlanet] = [junkPlanet] ∧
    displayLargePlanetsA [junkPlanet] = [] :=
  ⟨by decide, by decide, by decide, by decide⟩

/-- Claim C8 (amended): a planet whose population or diameter is the
string "unknown", or fails the copy's own numeric coercion (`Number` in
the first copy, `parseInt` in the second), is never displayed by that
copy's large-planet filter.  The original claim's "not a numeric string"
exclusion holds for the first copy but not for the second, whose
`parseInt` accepts any string with a large enough digit prefix. -/
theorem claim8_filter_amended :
    (∀ (ps : List Planet) (p : Planet),
       (p.population = "unknown" ∨ jsToNumber p.population = none ∨
        p.diameter = "unknown" ∨ jsToNumber p.diameter = none) →
       p ∉ displayLargePlanetsA ps) ∧
    (∀ (ps : List Planet) (p : Planet),
       (p.population = "unknown" ∨ jsParseInt p.population = none ∨
        p.diameter = "unknown" ∨ jsParseInt p.diameter = none) →
       p ∉ displayLargePlanetsB ps) := by
  constructor
  · intro ps p hp hmem
    rw [displayLargePlanetsA, List.mem_filter] at hmem
    have hfalse : isBigPopulatedPlanet p = false := by
      rcases hp with h | h | h | h
      · simp [isBigPopulatedPlanet, hasLargePopulation, knownNumber, h]
      · simp [isBigPopulatedPlanet, hasLargePopulation, knownNumber, h]
      · simp [isBigPopulatedPlanet, hasLargeDiameter, knownNumber, h]
      · simp [isBigPopulatedPlanet, hasLargeDiameter, knownNumber, h]
    rw [hmem.2] at hfalse
    exact absurd hfalse (by simp)
  · intro ps p hp hmem
    rw [displayLargePlanetsB, List.mem_filter] at hmem
    have hfalse : bigPlanetCheckB p = false := by
      rcases hp with h | h | h | h
      · simp [bigPlanetCheckB, h]
      · have hb : decide ((jsParseInt p.population).getD 0 >
            PLANET_POPULATION_THRESHOLD) = false := by
          rw [h]; decide
        simp [bigPlanetCheckB, hb]
      · simp [bigPlanetCheckB, h]
      · have hb : decide ((jsParseInt p.diameter).getD 0 >
            PLANET_DIAMETER_THRESHOLD) = false := by
          rw [h]; decide
        simp [bigPlanetCheckB, hb]
    rw [hmem.2] at hfalse
    exact absurd hfalse (by simp)

/-- Witness for C8's amended theorem: a planet with "unknown" population
is excluded by both copies. -/
theorem claim8_witness :
    unknownPlanet ∉ displayLargePlanetsA [unknownPlanet] ∧
    unknownPlanet ∉ displayLargePlanetsB [unknownPlanet] :=
  ⟨claim8_filter_amended.1 [unknownPlanet] unknownPlanet (Or.inl rfl),
   claim8_filter_amended.2 [unknownPlanet] unknownPlanet (Or.inl rfl)⟩

/-! ## Claim C9 -/

/-- A digit string is never the string "unknown". -/
theorem digitString_ne_unknown (s : String) (h : isDigitString s = true) :
    s ≠ "unknown" := by
  intro hs
  rw [hs] at h
  exact absurd h (by decide)

/-- A planet whose numeric fields are plain digit strings. -/
def digitPlanet : Planet :=
  ⟨"Alderaan", "2000000000", "12500", "temperate", []⟩

/-- Claim C9 counterexample: the two copies are not behaviourally
equivalent.  (1) Against the same remote `wGood` (every body
`{"results": []}`, so each display handler completes and invocation 1
runs to the end, advancing the rotating ID), the second invocations fetch
different endpoint sequences: the first copy's `tasks` array froze
`people/1` at load time while the second copy interpolates the advanced
rotating ID, requesting `people/2`.  (2) On a 200 response with a
malformed body the first copy's fetch crashes uncaught while the second
rejects with the parse error.  (3) The planet display filters disagree on
`junkPlanet`.  Each conjunct refutes "same sequence of endpoints", "same
behaviour", and "same planets selected for display" respectively. -/
theorem claim9_counterexample :
    (fetchStarWarsDataA wGood (runsA wGood 1)).calls ≠
      (fetchStarWarsDataB wGood (runsB wGood 1)).calls ∧
    (fetchFromApiA wCrash [] "films/").result = .crash ∧
    (fetchFromApiB wCrash [] "films/").result = .fail .parseError ∧
    displayLargePlanetsA [junkPlanet] = [] ∧
    displayLargePlanetsB [junkPlanet] = [junkPlanet] :=
  ⟨by decide, rfl, rfl, by decide, by decide⟩

/-- Claim C9 (amended): the equivalence of the two copies holds only in
restricted form: (1) away from malformed bodies the two fetch helpers are
the same function; (2) under a remote that always succeeds with bodies on
which no display handler of either copy throws, an invocation started
with a handler-safe cache and rotating ID 1 (in particular the very first
invocation of the process) behaves identically in both copies — same
state, calls, outbound requests and outcome; (3) the planet display
filters agree on planets whose population and diameter are "unknown" or
plain digit strings.  Outside these restrictions the copies diverge as
the counterexample shows: the frozen versus rotating character endpoint
from invocation 2 on, the crash versus rejection on malformed bodies, and
the parseInt versus Number planet selection. -/
theorem claim9_equivalence_amended :
    (∀ w, noMalformed w → ∀ (c : Cache) (e : String),
       fetchFromApiA w c e = fetchFromApiB w c e) ∧
    (∀ w st, safeWorld w → cacheSafe st.cache → st.lastCharacterId = 1 →
       fetchStarWarsDataA w st = fetchStarWarsDataB w st) ∧
    (∀ p : Planet,
       (p.population = "unknown" ∨ isDigitString p.population = true) →
       (p.diameter = "unknown" ∨ isDigitString p.diameter = true) →
       isBigPopulatedPlanet p = bigPlanetCheckB p) := by
  refine ⟨?_, ?_, ?_⟩
  · intro w hnm c e
    exact fetch_eq_of_noMalformed w hnm c e
  · intro w st hw hc hid
    unfold fetchStarWarsDataA fetchStarWarsDataB
    rw [hid]
    exact runOrch_eq_of_safe w hw tasksA (tasksB 1) (by decide)
      tasksA_handlers (tasksB_handlers 1) st hc
  · intro p hp hd
    rcases hp with hpu | hpd
    · simp [isBigPopulatedPlanet, hasLargePopulation, knownNumber,
        bigPlanetCheckB, hpu]
    · obtain ⟨hN, hP⟩ := coercions_agree_on_digits p.population hpd
      have hb1 : (p.population != "unknown") = true :=
        bne_iff_ne.mpr (digitString_ne_unknown p.population hpd)
      rcases hd with hdu | hdd
      · simp [isBigPopulatedPlanet, hasLargePopulation, hasLargeDiameter,
          knownNumber, bigPlanetCheckB, hdu]
      · obtain ⟨hN2, hP2⟩ := coercions_agree_on_digits p.diameter hdd
        have hb2 : (p.diameter != "unknown") = true :=
          bne_iff_ne.mpr (digitString_ne_unknown p.diameter hdd)
        simp [isBigPopulatedPlanet, hasLargePopulation, hasLargeDiameter,
          knownNumber, bigPlanetCheckB, hN, hP, hN2, hP2, hb1, hb2]

/-- Witness for C9's amended theorem: the first invocations on `wGood`
coincide, and the filters agree on a digit-string planet. -/
theorem claim9_witness :
    fetchStarWarsDataA wGood initialState =
      fetchStarWarsDataB wGood initialState ∧
    isBigPopulatedPlanet digitPlanet = bigPlanetCheckB digitPlanet :=
  ⟨claim9_equivalence_amended.2.1 wGood initialState
      (fun _ => ⟨200, .obj [("results", Json.arr [])], rfl, by omega,
        by decide⟩)
      cacheSafe_nil rfl,
   claim9_equivalence_amended.2.2 digitPlanet
      (Or.inr (by decide)) (Or.inr (by decide))⟩

/-- Witness for C3 at a concrete input: on an all-timeout remote the
second copy's invocation is caught, not crashed, with the counter at 1. -/
theorem claim3_witness :
    (fetchStarWarsDataB wTimeout initialState).outcome ≠ .crashed ∧
    (fetchStarWarsDataB wTimeout initialState).state.errorCount =
      initialState.errorCount +
        (if (fetchStarWarsDataB wTimeout initialState).outcome.isCaught
         then 1 else 0) ∧
    (fetchStarWarsDataA wTimeout initialState).state.errorCount =
      initialState.errorCount +
        (if (fetchStarWarsDataA wTimeout initialState).outcome.isCaught
         then 1 else 0) ∧
    (fetchStarWarsDataA wCrash initialState).outcome = .crashed :=
  claim3_no_crash wTimeout initialState
